import Mathlib

/-!
Shallow embedding of the fancontrol board-mode control engine
(`libcore`: board_config, demand_policy, pwm_controller, temp_source,
safety_guard/compute_target_decision, and the `--apply-config-json` path),
together with theorems settling the specification claims.

Modelling conventions:
* C++ `int` is modelled as `Int` (the program's range checks keep every
  value far away from 32-bit overflow, and no arithmetic in the modelled
  paths relies on wrap-around).
* C++ `double` (used only for demand ratios and ramp credit) is modelled
  as `Rat`; `std::lround` is rounding half away from zero.
* `std::string` is modelled as `List Char`; `std::optional<T>` as
  `Option T`; functions that throw are modelled in `Except String`.
* `std::chrono` timestamps are modelled as whole seconds (`Int`), which is
  the granularity at which the control loop compares ages against TTLs.
-/

namespace Fancontrol

/-! ## Board configuration data model (board_config.hpp) -/

/-- One temperature input definition (`BoardSourceConfig`). -/
structure BoardSourceConfig where
  id : List Char := []
  type : List Char := []
  path : List Char := []
  object : List Char := []
  method : List Char := []
  key : List Char := []
  args_json : List Char := []
  t_start_mC : Int := 0
  t_full_mC : Int := 0
  t_crit_mC : Int := 0
  ttl_sec : Int := 0
  poll_sec : Int := 0
  weight : Int := 0
  deriving Repr, DecidableEq

/-- The complete board profile (`BoardConfig`). -/
structure BoardConfig where
  interval_sec : Int := 0
  control_mode : List Char := []
  pwm_path : List Char := []
  pwm_enable_path : List Char := []
  control_mode_path : List Char := []
  pwm_min : Int := 0
  pwm_max : Int := 0
  ramp_up : Int := 0
  ramp_down : Int := 0
  hysteresis_mC : Int := 0
  failsafe_pwm : Int := 0
  sources : List BoardSourceConfig := []
  deriving Repr, DecidableEq

/-! ## Demand & safety policy (demand_policy.cpp) -/

/-- `min_cooling_pwm`: the idle end of the PWM span. -/
def min_cooling_pwm (cfg : BoardConfig) : Int :=
  cfg.pwm_min

/-- `max_cooling_pwm`: the full-cooling end of the PWM span. -/
def max_cooling_pwm (cfg : BoardConfig) : Int :=
  cfg.pwm_max

/-- `clamp_pwm`: clamp into the inclusive interval between `pwm_min` and
`pwm_max`, whichever orientation the configuration uses. -/
def clamp_pwm (cfg : BoardConfig) (pwm : Int) : Int :=
  let lo := min cfg.pwm_min cfg.pwm_max
  let hi := max cfg.pwm_min cfg.pwm_max
  max lo (min pwm hi)

/-- The cooling level of a clamped PWM value: distance from `pwm_min` in
the direction of `pwm_max` (`is_stronger_cooling_pwm`'s internal scale). -/
def cooling_level (cfg : BoardConfig) (pwm : Int) : Int :=
  let dir : Int := if cfg.pwm_max - cfg.pwm_min > 0 then 1 else -1
  (clamp_pwm cfg pwm - cfg.pwm_min) * dir

/-- `is_stronger_cooling_pwm`: whether `candidate` demands strictly
stronger cooling than `baseline`. -/
def is_stronger_cooling_pwm (candidate baseline : Int) (cfg : BoardConfig) : Bool :=
  let span := cfg.pwm_max - cfg.pwm_min
  if span = 0 then
    false
  else
    decide (cooling_level cfg candidate > cooling_level cfg baseline)

/-- `stronger_cooling_pwm`: keep the stronger-cooling of two demands
(ties keep the left argument). -/
def stronger_cooling_pwm (lhs rhs : Int) (cfg : BoardConfig) : Int :=
  if is_stronger_cooling_pwm rhs lhs cfg then rhs else lhs

/-- `std::lround` on an exact rational: round half away from zero. -/
def lround_rat (x : Rat) : Int :=
  if 0 ≤ x then (x + 1/2).floor else (x - 1/2).ceil

/-- Result of `demand_from_source`: the returned PWM demand plus the two
by-reference outputs `active` and `critical`. -/
structure DemandOut where
  pwm : Int
  active : Bool
  critical : Bool
  deriving Repr, DecidableEq

/-- `demand_from_source`: per-source cooling demand with critical override
and on/off hysteresis; `active` is the persistent per-source flag. -/
def demand_from_source (cfg : BoardConfig) (src : BoardSourceConfig)
    (temp_mC : Int) (active : Bool) : DemandOut :=
  let idle_pwm := min_cooling_pwm cfg
  let full_pwm := max_cooling_pwm cfg
  if temp_mC ≥ src.t_crit_mC then
    ⟨full_pwm, true, true⟩
  else
    let on_threshold := src.t_start_mC + cfg.hysteresis_mC
    let off_threshold := src.t_start_mC - cfg.hysteresis_mC
    let gate : Option Bool :=
      if !active then
        if temp_mC < on_threshold then none else some true
      else
        if temp_mC ≤ off_threshold then none else some true
    match gate with
    | none => ⟨idle_pwm, false, false⟩
    | some active' =>
      let ratio : Rat :=
        if temp_mC ≤ src.t_start_mC then 0
        else if temp_mC ≥ src.t_full_mC then 1
        else (temp_mC - src.t_start_mC : Int) / ((src.t_full_mC - src.t_start_mC : Int) : Rat)
      let ratio := ratio * ((src.weight : Rat) / 100)
      let ratio := max 0 (min ratio 1)
      let span := cfg.pwm_max - cfg.pwm_min
      let demand := cfg.pwm_min + lround_rat (ratio * (span : Rat))
      ⟨clamp_pwm cfg demand, active', false⟩

/-- One demand_policy step viewed as a transition of the per-source
`active` flag at a fixed temperature. -/
def active_step (cfg : BoardConfig) (src : BoardSourceConfig) (temp_mC : Int)
    (active : Bool) : Bool :=
  (demand_from_source cfg src temp_mC active).active

/-! ## PWM ramp controller (pwm_controller: apply_ramp with RampAccumulator) -/

/-- Fractional ramp credit carried between control-loop ticks
(`RampAccumulator`). -/
structure RampAccumulator where
  stronger_credit : Rat := 0
  weaker_credit : Rat := 0
  deriving Repr, DecidableEq

/-- The absolute PWM span `|pwm_max - pwm_min|`. -/
def ramp_span (cfg : BoardConfig) : Int :=
  |cfg.pwm_max - cfg.pwm_min|

/-- Per-tick ramp credit: full span swept over `ramp_up`/`ramp_down`
seconds, evaluated once per `interval_sec` tick. -/
def ramp_per_tick (cfg : BoardConfig) (stronger : Bool) : Rat :=
  ((ramp_span cfg * max 1 cfg.interval_sec : Int) : Rat) /
    ((max 1 (if stronger then cfg.ramp_up else cfg.ramp_down) : Int) : Rat)

/-- The credit slot for the current ramp direction. -/
def ramp_dir_credit (acc : RampAccumulator) (stronger : Bool) : Rat :=
  if stronger then acc.stronger_credit else acc.weaker_credit

/-- `apply_ramp` (accumulator variant): move `current_pwm` toward
`target_pwm` by the whole-step part of the accumulated credit, never past
the target, resetting credit at the target. Returns the next PWM and the
updated accumulator. -/
def apply_ramp (current_pwm target_pwm : Int) (cfg : BoardConfig)
    (acc : RampAccumulator) : Int × RampAccumulator :=
  let bounded_current := clamp_pwm cfg current_pwm
  let bounded_target := clamp_pwm cfg target_pwm
  if bounded_target = bounded_current then
    (bounded_current, ⟨0, 0⟩)
  else if ramp_span cfg ≤ 0 then
    (bounded_current, ⟨0, 0⟩)
  else
    let stronger := is_stronger_cooling_pwm bounded_target bounded_current cfg
    let per_tick := ramp_per_tick cfg stronger
    let credit := ramp_dir_credit acc stronger + per_tick
    let step := ⌊credit⌋
    if step ≤ 0 then
      (bounded_current, if stronger then ⟨credit, 0⟩ else ⟨0, credit⟩)
    else
      let credit' := credit - (step : Rat)
      let step := min step 1073741823
      let acc' : RampAccumulator := if stronger then ⟨credit', 0⟩ else ⟨0, credit'⟩
      if bounded_target > bounded_current then
        (clamp_pwm cfg (min bounded_target (bounded_current + step)), acc')
      else
        (clamp_pwm cfg (max bounded_target (bounded_current - step)), acc')

/-- `n` control-loop ticks of `apply_ramp` toward a fixed target, feeding
each tick's output PWM and accumulator into the next tick. -/
def apply_ramp_iter (cfg : BoardConfig) (target_pwm : Int) :
    Nat → Int × RampAccumulator → Int × RampAccumulator
  | 0, s => s
  | n + 1, s => apply_ramp_iter cfg target_pwm n (apply_ramp s.1 target_pwm cfg s.2)

/-! ## Temperature samples and snapshots (temp_source.hpp) -/

/-- One observation (`TempSample`); `sample_ts` is a steady-clock
timestamp in whole seconds. -/
structure TempSample where
  ok : Bool := false
  temp_mC : Int := 0
  sample_ts : Int := 0
  error : List Char := []
  deriving Repr, DecidableEq

/-- Read-only view a source exposes to the control loop
(`SourceSnapshot`). -/
structure SourceSnapshot where
  has_polled : Bool := false
  last_sample : Option TempSample := none
  last_good_sample : Option TempSample := none
  deriving Repr, DecidableEq

/-- One `SourceRuntime` as seen by the control loop: a live source's id
and its current snapshot. A dead runtime slot is modelled as `none` in the
runtime list. -/
structure SourceRuntimeView where
  id : List Char
  snap : SourceSnapshot
  deriving Repr, DecidableEq

/-- Per-source diagnostic snapshot (`SourceTelemetry`). -/
structure SourceTelemetry where
  id : List Char := []
  has_polled : Bool := false
  ok : Bool := false
  stale : Bool := false
  using_last_good : Bool := false
  active : Bool := false
  critical : Bool := false
  temp_mC : Int := 0
  age_sec : Int := 0
  ttl_sec : Int := 0
  demand_pwm : Int := 0
  error : List Char := []
  deriving Repr, DecidableEq

/-- One control-loop tick's output (`TargetDecision`). -/
structure TargetDecision where
  target_pwm : Int := 0
  any_valid : Bool := false
  any_timeout : Bool := false
  critical : Bool := false
  deriving Repr, DecidableEq

/-- Lookup in an association list keyed by strings (models
`std::unordered_map::find`). -/
def assoc_find {α : Type} : List (List Char × α) → List Char → Option α
  | [], _ => none
  | (k, v) :: rest, key => if k = key then some v else assoc_find rest key

/-- `active_state[id]` read (`operator[]` default-inserts `false`). -/
def active_lookup (m : List (List Char × Bool)) (key : List Char) : Bool :=
  (assoc_find m key).getD false

/-- Net effect of writing through the `active_state[id]` reference. -/
def active_update : List (List Char × Bool) → List Char → Bool → List (List Char × Bool)
  | [], key, v => [(key, v)]
  | (k, v0) :: rest, key, v =>
    if k = key then (k, v) :: rest else (k, v0) :: active_update rest key v

/-- State threaded through `compute_target_decision`'s source loop: the
decision being built, the persistent per-source `active` flags, and the
telemetry list. -/
structure DecisionState where
  decision : TargetDecision
  active_state : List (List Char × Bool)
  telemetry : List SourceTelemetry
  deriving Repr, DecidableEq

/-- Whether a source's freshest usable sample is beyond its TTL this tick
(the loop's `source_timeout` computation). -/
def source_snapshot_timeout (src : BoardSourceConfig) (now : Int)
    (snap : SourceSnapshot) : Bool :=
  match snap.last_good_sample with
  | some g => decide (now - g.sample_ts > src.ttl_sec)
  | none =>
    match snap.last_sample with
    | some s => snap.has_polled && decide (now - s.sample_ts > src.ttl_sec)
    | none => snap.has_polled

/-- A runtime slot that carries a timed-out configured source. -/
def source_times_out (by_id : List (List Char × BoardSourceConfig)) (now : Int)
    (ort : Option SourceRuntimeView) : Bool :=
  match ort with
  | none => false
  | some rt =>
    match assoc_find by_id rt.id with
    | none => false
    | some src => source_snapshot_timeout src now rt.snap

/-- A runtime slot that contributes a valid reading to arbitration this
tick: it resolves in the configuration, has not timed out, and has a
last-known-good sample. -/
def source_contributes (by_id : List (List Char × BoardSourceConfig)) (now : Int)
    (ort : Option SourceRuntimeView) : Bool :=
  match ort with
  | none => false
  | some rt =>
    match assoc_find by_id rt.id with
    | none => false
    | some src =>
      !(source_snapshot_timeout src now rt.snap) && rt.snap.last_good_sample.isSome

/-- One iteration of `compute_target_decision`'s source loop. -/
def decision_step (cfg : BoardConfig) (by_id : List (List Char × BoardSourceConfig))
    (now : Int) (st : DecisionState) (ort : Option SourceRuntimeView) : DecisionState :=
  match ort with
  | none => st
  | some rt =>
    let item : SourceTelemetry := { id := rt.id }
    match assoc_find by_id rt.id with
    | none =>
      { st with telemetry :=
          st.telemetry ++ [{ item with error := "source id missing in config".toList }] }
    | some src =>
      let item := { item with ttl_sec := src.ttl_sec }
      let snap := rt.snap
      let item := { item with has_polled := snap.has_polled }
      let item :=
        match snap.last_sample with
        | some s =>
          let item := { item with ok := s.ok, error := s.error }
          if s.ok then { item with temp_mC := s.temp_mC } else item
        | none =>
          if item.has_polled then { item with error := "no sample".toList } else item
      let timed := source_snapshot_timeout src now snap
      let item :=
        match snap.last_good_sample with
        | some g =>
          let age := now - g.sample_ts
          let item := { item with age_sec := age, stale := decide (age > src.ttl_sec) }
          match snap.last_sample with
          | some s =>
            if s.ok then item
            else { item with using_last_good := true, temp_mC := g.temp_mC }
          | none => { item with using_last_good := true, temp_mC := g.temp_mC }
        | none =>
          match snap.last_sample with
          | some s => { item with age_sec := now - s.sample_ts }
          | none => item
      if timed then
        { st with
            decision := { st.decision with any_timeout := true },
            telemetry := st.telemetry ++ [item] }
      else
        match snap.last_good_sample with
        | none => { st with telemetry := st.telemetry ++ [item] }
        | some g =>
          let active := active_lookup st.active_state rt.id
          let d := demand_from_source cfg src g.temp_mC active
          let item := { item with
              active := d.active, critical := d.critical, demand_pwm := d.pwm }
          { decision := { st.decision with
                any_valid := true,
                critical := st.decision.critical || d.critical,
                target_pwm := stronger_cooling_pwm st.decision.target_pwm d.pwm cfg },
            active_state := active_update st.active_state rt.id d.active,
            telemetry := st.telemetry ++ [item] }

/-- `compute_target_decision`: fold the source loop over every runtime
slot, then apply the safety ladder (critical → max cooling; no valid
reading → max cooling; any timeout → raise to the clamped fail-safe) and
the final clamp. Returns the decision together with the updated active
flags and telemetry. -/
def compute_target_decision (cfg : BoardConfig)
    (by_id : List (List Char × BoardSourceConfig))
    (runtimes : List (Option SourceRuntimeView))
    (active0 : List (List Char × Bool)) (now : Int) : DecisionState :=
  let st0 : DecisionState :=
    { decision := { target_pwm := min_cooling_pwm cfg },
      active_state := active0,
      telemetry := [] }
  let st := runtimes.foldl (decision_step cfg by_id now) st0
  let d := st.decision
  let t1 := if d.critical then max_cooling_pwm cfg else d.target_pwm
  let t2 := if !d.any_valid then max_cooling_pwm cfg else t1
  let t3 :=
    if d.any_timeout then
      stronger_cooling_pwm t2 (clamp_pwm cfg cfg.failsafe_pwm) cfg
    else t2
  { st with decision := { d with target_pwm := clamp_pwm cfg t3 } }

/-- The demands contributed to arbitration this tick, in runtime order,
with the per-source `active` flags threaded exactly as the loop does. -/
def demands_of (cfg : BoardConfig) (by_id : List (List Char × BoardSourceConfig))
    (now : Int) : List (Option SourceRuntimeView) → List (List Char × Bool) → List Int
  | [], _ => []
  | ort :: rest, amap =>
    match ort with
    | none => demands_of cfg by_id now rest amap
    | some rt =>
      match assoc_find by_id rt.id with
      | none => demands_of cfg by_id now rest amap
      | some src =>
        if source_snapshot_timeout src now rt.snap then
          demands_of cfg by_id now rest amap
        else
          match rt.snap.last_good_sample with
          | none => demands_of cfg by_id now rest amap
          | some g =>
            let d := demand_from_source cfg src g.temp_mC (active_lookup amap rt.id)
            d.pwm :: demands_of cfg by_id now rest (active_update amap rt.id d.active)

/-! ## Temperature source sampling (temp_source.cpp: SysfsTempSource,
UbusTempSource) -/

/-- The per-source sample state both source variants guard behind their
lock: `has_polled_`, `last_sample_`, `last_good_sample_`. -/
structure SourceSampleState where
  has_polled : Bool := false
  last_sample : Option TempSample := none
  last_good_sample : Option TempSample := none
  deriving Repr, DecidableEq

/-- `SysfsTempSource::store_sample`: record the sample as the latest
attempt, promote it to last-good only if it succeeded, mark polled. -/
def SysfsTempSource_store_sample (st : SourceSampleState)
    (sample : TempSample) : SourceSampleState :=
  let last := some sample
  { has_polled := true,
    last_sample := last,
    last_good_sample := if sample.ok then last else st.last_good_sample }

/-- `UbusTempSource::store_sample` (same body as the sysfs variant). -/
def UbusTempSource_store_sample (st : SourceSampleState)
    (sample : TempSample) : SourceSampleState :=
  let last := some sample
  { has_polled := true,
    last_sample := last,
    last_good_sample := if sample.ok then last else st.last_good_sample }

/-- `SysfsTempSource::publish_failure`. -/
def SysfsTempSource_publish_failure (st : SourceSampleState)
    (error : List Char) (ts : Int) : SourceSampleState :=
  SysfsTempSource_store_sample st { ok := false, sample_ts := ts, error := error }

/-- `SysfsTempSource::sample`, with the outcome of `read_int_file(path_)`
abstracted as an `Option Int` input. -/
def SysfsTempSource_sample (path : List Char) (ts : Int)
    (read_result : Option Int) : TempSample :=
  match read_result with
  | none => { ok := false, sample_ts := ts, error := "cannot read ".toList ++ path }
  | some v => { ok := true, temp_mC := v, sample_ts := ts }

/-- Failure reasons of `parse_and_add_ubus_args` /
`add_json_value_to_blobmsg`, by assignment site. -/
inductive UbusArgsFailure
  | not_object
  | invalid_json (what : List Char)
  | nesting_too_deep
  | open_table_failed
  | open_array_failed
  | add_bool_failed
  | add_unsigned_failed
  | negative_integer
  | add_integer_failed
  | add_float_failed
  | add_string_failed
  | null_value
  | unsupported_type
  deriving Repr, DecidableEq

/-- The error text each args-failure site writes. -/
def ubus_args_failure_text : UbusArgsFailure → List Char
  | .not_object => "ubus args json must be an object".toList
  | .invalid_json what => "invalid ubus args json: ".toList ++ what
  | .nesting_too_deep => "ubus args json nesting is too deep".toList
  | .open_table_failed => "failed to create ubus table field".toList
  | .open_array_failed => "failed to create ubus array field".toList
  | .add_bool_failed => "failed to add ubus boolean field".toList
  | .add_unsigned_failed => "failed to add ubus unsigned integer field".toList
  | .negative_integer => "ubus args json does not support negative integer values".toList
  | .add_integer_failed => "failed to add ubus integer field".toList
  | .add_float_failed => "failed to add ubus floating-point field".toList
  | .add_string_failed => "failed to add ubus string field".toList
  | .null_value => "ubus args json does not support null values".toList
  | .unsupported_type => "ubus args json contains unsupported value type".toList

/-- How one `UbusTempSource::sample` attempt can end, with the ubus
transport abstracted: each failure constructor carries the detail text the
corresponding branch interpolates. -/
inductive UbusSampleOutcome
  | connect_failed
  | lookup_failed (rc_text : List Char)
  | args_failed (failure : UbusArgsFailure)
  | call_failed (rc_text : List Char)
  | no_value (callback_error : List Char)
  | value (temp_mC : Int)
  deriving Repr, DecidableEq

/-- `UbusTempSource::sample`: build the `TempSample` for each outcome
exactly as the corresponding early-return branch does. -/
def UbusTempSource_sample (object method key : List Char) (ts : Int) :
    UbusSampleOutcome → TempSample
  | .connect_failed =>
    { ok := false, sample_ts := ts, error := "ubus connect failed".toList }
  | .lookup_failed rc =>
    { ok := false, sample_ts := ts,
      error := "ubus object lookup failed for ".toList ++ object ++ ": ".toList ++ rc }
  | .args_failed f =>
    { ok := false, sample_ts := ts, error := ubus_args_failure_text f }
  | .call_failed rc =>
    { ok := false, sample_ts := ts,
      error := "ubus call failed for ".toList ++ object ++ ".".toList ++ method ++
        ": ".toList ++ rc }
  | .no_value cb =>
    { ok := false, sample_ts := ts,
      error := if cb = [] then "ubus key not found or invalid: ".toList ++ key else cb }
  | .value v => { ok := true, temp_mC := v, sample_ts := ts }

/-! ## Board configuration parsing and validation (board_config.cpp,
config_spec.cpp)

Character-level helpers model the C locale (`std::isspace`,
`std::isalnum`, `std::tolower`) on byte values; strings are `List Char`.
Some characters are written via `Char.ofNat` codes: 34 is the double
quote, 39 the single quote, 123 and 125 the curly braces. -/

def chQuote : Char := Char.ofNat 34

def chSQuote : Char := Char.ofNat 39

def chLBrace : Char := Char.ofNat 123

def chRBrace : Char := Char.ofNat 125

def c_isspace (c : Char) : Bool :=
  c = ' ' || (9 ≤ c.toNat && c.toNat ≤ 13)

def c_isdigit (c : Char) : Bool :=
  48 ≤ c.toNat && c.toNat ≤ 57

def c_isalnum (c : Char) : Bool :=
  c_isdigit c || (65 ≤ c.toNat && c.toNat ≤ 90) || (97 ≤ c.toNat && c.toNat ≤ 122)

def c_tolower (c : Char) : Char :=
  if 65 ≤ c.toNat && c.toNat ≤ 90 then Char.ofNat (c.toNat + 32) else c

/-- `trim`: strip leading and trailing C-locale whitespace. -/
def trim (s : List Char) : List Char :=
  ((s.dropWhile c_isspace).reverse.dropWhile c_isspace).reverse

/-- `to_lower_ascii`. -/
def to_lower_ascii (s : List Char) : List Char :=
  s.map c_tolower

/-- Decimal value of a digit run (most significant first). -/
def digits_val (ds : List Char) : Nat :=
  ds.foldl (fun a c => a * 10 + (c.toNat - 48)) 0

/-- Digit-emission loop for `nat_to_text` (structural on the fuel, which
always dominates the digit count). -/
def nat_to_text_go : Nat → Nat → List Char → List Char
  | 0, _, acc => acc
  | fuel + 1, n, acc =>
    let acc := Char.ofNat (48 + n % 10) :: acc
    if n < 10 then acc else nat_to_text_go fuel (n / 10) acc

/-- Decimal digits of a natural number, most significant first
(`std::ostream <<` formatting). -/
def nat_to_text (n : Nat) : List Char :=
  nat_to_text_go (n + 1) n []

def int_to_text (v : Int) : List Char :=
  if v < 0 then '-' :: nat_to_text (-v).toNat else nat_to_text v.toNat

/-- `to_int`: `std::stoll` on the whole string plus an `int` range check;
every failure collapses to the same "invalid integer" error. -/
def to_int (s : List Char) (name : List Char) : Except String Int :=
  let err : Except String Int :=
    .error ("invalid integer for " ++ String.mk name ++ ": " ++ String.mk s)
  let t := s.dropWhile c_isspace
  let signAndRest : Int × List Char :=
    match t with
    | '+' :: r => (1, r)
    | '-' :: r => (-1, r)
    | _ => (1, t)
  let digits := signAndRest.2.takeWhile c_isdigit
  let rest := signAndRest.2.dropWhile c_isdigit
  if digits = [] then err
  else if rest ≠ [] then err
  else
    let v : Int := signAndRest.1 * (digits_val digits : Int)
    if v < -2147483648 ∨ v > 2147483647 then err else .ok v

/-- Helper for `getlines`: collect the current (reversed) line. -/
def getlines_go : List Char → List Char → List (List Char)
  | [], acc => [acc.reverse]
  | c :: rest, acc =>
    if c = '\n' then
      match rest with
      | [] => [acc.reverse]
      | _ :: _ => acc.reverse :: getlines_go rest []
    else getlines_go rest (c :: acc)

/-- `std::getline` splitting: lines are maximal newline-free runs; a
final newline does not yield a trailing empty line, and empty input has
no lines. -/
def getlines : List Char → List (List Char)
  | [] => []
  | c :: rest => getlines_go (c :: rest) []

/-! ### JSON values (nlohmann::json, restricted model)

Restrictions relative to `nlohmann::json`, noted for honesty: numbers are
modelled as arbitrary-precision integers only (fraction/exponent syntax
is rejected instead of parsed as `double`), `\u` escapes decode a single
BMP codepoint (no surrogate pairing), and duplicate object keys keep the
last occurrence. Object fields are kept sorted by byte-wise key order,
matching `std::map<std::string, ...>` iteration. -/

inductive Json
  | null
  | bool (b : Bool)
  | num (n : Int)
  | str (s : List Char)
  | arr (items : List Json)
  | obj (fields : List (List Char × Json))

/-- Byte-wise lexicographic order on strings (`std::less<std::string>`). -/
def str_lt : List Char → List Char → Bool
  | [], [] => false
  | [], _ :: _ => true
  | _ :: _, [] => false
  | a :: as, b :: bs =>
    if a.toNat < b.toNat then true
    else if b.toNat < a.toNat then false
    else str_lt as bs

/-- Sorted-map insert with replacement (duplicate keys keep the last
inserted value). -/
def json_obj_insert (key : List Char) (v : Json) :
    List (List Char × Json) → List (List Char × Json)
  | [] => [(key, v)]
  | (k0, v0) :: rest =>
    if str_lt key k0 then (key, v) :: (k0, v0) :: rest
    else if key = k0 then (key, v) :: rest
    else (k0, v0) :: json_obj_insert key v rest

def json_obj_find (fields : List (List Char × Json)) (key : List Char) : Option Json :=
  assoc_find fields key

def hex_digit (n : Nat) : Char :=
  if n < 10 then Char.ofNat (48 + n) else Char.ofNat (87 + n)

/-- One character of `nlohmann::json`'s `dump` escaping. -/
def json_escape_char (c : Char) : List Char :=
  if c = chQuote then ['\\', chQuote]
  else if c = '\\' then ['\\', '\\']
  else if c.toNat = 8 then ['\\', 'b']
  else if c.toNat = 9 then ['\\', 't']
  else if c.toNat = 10 then ['\\', 'n']
  else if c.toNat = 12 then ['\\', 'f']
  else if c.toNat = 13 then ['\\', 'r']
  else if c.toNat < 32 then
    ['\\', 'u', '0', '0', hex_digit (c.toNat / 16), hex_digit (c.toNat % 16)]
  else [c]

def json_escape (s : List Char) : List Char :=
  s.foldr (fun c acc => json_escape_char c ++ acc) []

mutual

/-- `nlohmann::json::dump()` (compact form, no spaces). -/
def json_dump : Json → List Char
  | .null => 'n' :: 'u' :: 'l' :: 'l' :: []
  | .bool true => 't' :: 'r' :: 'u' :: 'e' :: []
  | .bool false => 'f' :: 'a' :: 'l' :: 's' :: 'e' :: []
  | .num n => int_to_text n
  | .str s => chQuote :: json_escape s ++ [chQuote]
  | .arr items => '[' :: json_dump_items items ++ [']']
  | .obj fields => chLBrace :: json_dump_fields fields ++ [chRBrace]

def json_dump_items : List Json → List Char
  | [] => []
  | [x] => json_dump x
  | x :: y :: rest => json_dump x ++ ',' :: json_dump_items (y :: rest)

def json_dump_fields : List (List Char × Json) → List Char
  | [] => []
  | [(k, v)] => chQuote :: json_escape k ++ chQuote :: ':' :: json_dump v
  | (k, v) :: f2 :: rest =>
    (chQuote :: json_escape k ++ chQuote :: ':' :: json_dump v) ++
      ',' :: json_dump_fields (f2 :: rest)

end

def json_skip_ws (s : List Char) : List Char :=
  s.dropWhile (fun c => c = ' ' || c.toNat = 9 || c.toNat = 10 || c.toNat = 13)

def hex_val (c : Char) : Option Nat :=
  if 48 ≤ c.toNat ∧ c.toNat ≤ 57 then some (c.toNat - 48)
  else if 97 ≤ c.toNat ∧ c.toNat ≤ 102 then some (c.toNat - 87)
  else if 65 ≤ c.toNat ∧ c.toNat ≤ 70 then some (c.toNat - 55)
  else none

/-- Body of a JSON string literal after the opening quote (structural on
fuel, which dominates the remaining length); returns the decoded
characters and the remainder after the closing quote. -/
def json_parse_string_go : Nat → List Char → Except String (List Char × List Char)
  | 0, _ => .error "unterminated string"
  | _, [] => .error "unterminated string"
  | fuel + 1, c :: rest =>
    if c = chQuote then .ok ([], rest)
    else if c = '\\' then
      match rest with
      | [] => .error "unterminated escape"
      | e :: rest2 =>
        if e = 'u' then
          match rest2 with
          | h1 :: h2 :: h3 :: h4 :: rest3 =>
            match hex_val h1, hex_val h2, hex_val h3, hex_val h4 with
            | some a, some b, some cc, some d =>
              match json_parse_string_go fuel rest3 with
              | .error msg => .error msg
              | .ok (tail, rem) =>
                .ok (Char.ofNat (((a * 16 + b) * 16 + cc) * 16 + d) :: tail, rem)
            | _, _, _, _ => .error "invalid unicode escape"
          | _ => .error "invalid unicode escape"
        else
          let decoded : Option Char :=
            if e = chQuote then some chQuote
            else if e = '\\' then some '\\'
            else if e = '/' then some '/'
            else if e = 'b' then some (Char.ofNat 8)
            else if e = 'f' then some (Char.ofNat 12)
            else if e = 'n' then some (Char.ofNat 10)
            else if e = 'r' then some (Char.ofNat 13)
            else if e = 't' then some (Char.ofNat 9)
            else none
          match decoded with
          | none => .error "invalid escape"
          | some d =>
            match json_parse_string_go fuel rest2 with
            | .error msg => .error msg
            | .ok (tail, rem) => .ok (d :: tail, rem)
    else if c.toNat < 32 then .error "control character in string"
    else
      match json_parse_string_go fuel rest with
      | .error msg => .error msg
      | .ok (tail, rem) => .ok (c :: tail, rem)

def json_parse_string_body (s : List Char) : Except String (List Char × List Char) :=
  json_parse_string_go (s.length + 1) s

/-- JSON integer literal after an optional leading minus. -/
def json_parse_number (neg : Bool) (s : List Char) : Except String (Json × List Char) :=
  let digits := s.takeWhile c_isdigit
  let rest := s.dropWhile c_isdigit
  if digits = [] then .error "invalid number"
  else if digits.length > 1 ∧ digits.headD ' ' = '0' then .error "leading zero in number"
  else
    match rest with
    | '.' :: _ => .error "fractional numbers are outside this model"
    | 'e' :: _ => .error "exponent numbers are outside this model"
    | 'E' :: _ => .error "exponent numbers are outside this model"
    | _ =>
      let v : Int := (if neg then -1 else 1) * (digits_val digits : Int)
      if v < -9223372036854775808 ∨ 9223372036854775807 < v then
        .error "number out of range"
      else .ok (.num v, rest)

mutual

def json_parse_value : Nat → List Char → Except String (Json × List Char)
  | 0, _ => .error "json input too deeply nested"
  | Nat.succ fuel, s =>
    match json_skip_ws s with
    | [] => .error "unexpected end of json input"
    | c :: rest =>
      if c = 'n' then
        match rest with
        | 'u' :: 'l' :: 'l' :: r => .ok (.null, r)
        | _ => .error "invalid literal"
      else if c = 't' then
        match rest with
        | 'r' :: 'u' :: 'e' :: r => .ok (.bool true, r)
        | _ => .error "invalid literal"
      else if c = 'f' then
        match rest with
        | 'a' :: 'l' :: 's' :: 'e' :: r => .ok (.bool false, r)
        | _ => .error "invalid literal"
      else if c = chQuote then
        match json_parse_string_body rest with
        | .error e => .error e
        | .ok (txt, rem) => .ok (.str txt, rem)
      else if c = '-' then json_parse_number true rest
      else if c_isdigit c then json_parse_number false (c :: rest)
      else if c = '[' then
        match json_skip_ws rest with
        | ']' :: r => .ok (.arr [], r)
        | r => json_parse_items fuel r
      else if c = chLBrace then
        match json_skip_ws rest with
        | r =>
          if r.headD ' ' = chRBrace then .ok (.obj [], r.tailD [])
          else json_parse_fields fuel r []
      else .error "unexpected character"

def json_parse_items : Nat → List Char → Except String (Json × List Char)
  | 0, _ => .error "json input too deeply nested"
  | Nat.succ fuel, s =>
    match json_parse_value fuel s with
    | .error e => .error e
    | .ok (v, rest) =>
      match json_skip_ws rest with
      | ',' :: r =>
        match json_parse_items fuel r with
        | .error e => .error e
        | .ok (.arr items, rem) => .ok (.arr (v :: items), rem)
        | .ok _ => .error "invalid array"
      | ']' :: r => .ok (.arr [v], r)
      | _ => .error "expected comma or bracket in array"

def json_parse_fields : Nat → List Char →
    List (List Char × Json) → Except String (Json × List Char)
  | 0, _, _ => .error "json input too deeply nested"
  | Nat.succ fuel, s, acc =>
    match json_skip_ws s with
    | c :: rest =>
      if c = chQuote then
        match json_parse_string_body rest with
        | .error e => .error e
        | .ok (key, rem) =>
          match json_skip_ws rem with
          | ':' :: r =>
            match json_parse_value fuel r with
            | .error e => .error e
            | .ok (v, rem2) =>
              match json_skip_ws rem2 with
              | ',' :: r2 => json_parse_fields fuel r2 (json_obj_insert key v acc)
              | r3 =>
                if r3.headD ' ' = chRBrace then
                  .ok (.obj (json_obj_insert key v acc), r3.tailD [])
                else .error "expected comma or brace in object"
          | _ => .error "expected colon in object"
      else .error "expected string key in object"
    | [] => .error "unexpected end of json input"

end

/-- `nlohmann::json::parse` over the whole input. -/
def json_parse (s : List Char) : Except String Json :=
  match json_parse_value (s.length + 8) s with
  | .error e => .error e
  | .ok (j, rest) =>
    if json_skip_ws rest = [] then .ok j
    else .error "trailing characters after json value"

/-- `canonicalize_json_object_text`: parse, require an object, and return
the canonical `dump`; any failure (including the not-an-object throw) is
wrapped in the "invalid JSON for" message. -/
def canonicalize_json_object_text (json_text : List Char) (name : String) :
    Except String (List Char) :=
  match json_parse json_text with
  | .error e => .error ("invalid JSON for " ++ name ++ ": " ++ e)
  | .ok j =>
    match j with
    | .obj fields => .ok (json_dump (.obj fields))
    | _ => .error ("invalid JSON for " ++ name ++ ": " ++ name ++ " must be a JSON object")

instance {ε α : Type} [DecidableEq ε] [DecidableEq α] : DecidableEq (Except ε α) := fun x y =>
  match x, y with
  | .error a, .error b =>
    if h : a = b then .isTrue (by rw [h]) else .isFalse (by simp [h])
  | .ok a, .ok b =>
    if h : a = b then .isTrue (by rw [h]) else .isFalse (by simp [h])
  | .error _, .ok _ => .isFalse (by simp)
  | .ok _, .error _ => .isFalse (by simp)

/-! ### Field specs (config_spec.cpp) -/

structure IntFieldSpec where
  key : List Char
  default_value : Int
  min_value : Int
  max_value : Int
  has_max : Bool
  deriving Repr, DecidableEq

structure StringFieldSpec where
  key : List Char
  default_value : List Char
  required : Bool
  deriving Repr, DecidableEq

structure EnumFieldSpec where
  key : List Char
  default_value : List Char
  allowed_values : List (List Char)
  deriving Repr, DecidableEq

structure SourceFieldSpec where
  key : List Char
  default_value : Int
  min_value : Int
  max_value : Int
  has_max : Bool
  deriving Repr, DecidableEq

structure SourceTemplateSpec where
  id : List Char
  type : List Char
  path : List Char
  object : List Char
  method : List Char
  key : List Char
  args_json : List Char
  t_start_mC : Int
  t_full_mC : Int
  t_crit_mC : Int
  ttl_sec : Int
  poll_sec : Int
  weight : Int
  deriving Repr, DecidableEq

structure ConfigSpec where
  interval_sec : IntFieldSpec
  control_mode : EnumFieldSpec
  pwm_path : StringFieldSpec
  pwm_enable_path : StringFieldSpec
  control_mode_path : StringFieldSpec
  pwm_min : IntFieldSpec
  pwm_max : IntFieldSpec
  ramp_up : IntFieldSpec
  ramp_down : IntFieldSpec
  hysteresis_mC : IntFieldSpec
  failsafe_pwm : IntFieldSpec
  source_t_start_mC : SourceFieldSpec
  source_t_full_mC : SourceFieldSpec
  source_t_crit_mC : SourceFieldSpec
  source_ttl_sec : SourceFieldSpec
  source_poll_sec : SourceFieldSpec
  source_weight : SourceFieldSpec
  source_types : List (List Char)
  source_templates : List SourceTemplateSpec
  deriving Repr, DecidableEq

def kDefaultPwmPath : List Char := "/sys/class/hwmon/hwmon2/pwm1".toList

def kDefaultPwmEnablePath : List Char := "/sys/class/hwmon/hwmon2/pwm1_enable".toList

def kDefaultControlModePath : List Char := "/sys/class/thermal/thermal_zone0/mode".toList

/-- `board_config_spec()`: the static field-spec table. The ubus template's
`args_json` is the literal `"config_section":"2_1"` object. -/
def board_config_spec : ConfigSpec where
  interval_sec := ⟨"INTERVAL".toList, 1, 1, 0, false⟩
  control_mode := ⟨"CONTROL_MODE".toList, "kernel".toList, ["kernel".toList, "user".toList]⟩
  pwm_path := ⟨"PWM_PATH".toList, kDefaultPwmPath, true⟩
  pwm_enable_path := ⟨"PWM_ENABLE_PATH".toList, kDefaultPwmEnablePath, false⟩
  control_mode_path := ⟨"CONTROL_MODE_PATH".toList, kDefaultControlModePath, true⟩
  pwm_min := ⟨"PWM_MIN".toList, 0, 0, 255, true⟩
  pwm_max := ⟨"PWM_MAX".toList, 255, 0, 255, true⟩
  ramp_up := ⟨"RAMP_UP".toList, 5, 1, 0, false⟩
  ramp_down := ⟨"RAMP_DOWN".toList, 10, 1, 0, false⟩
  hysteresis_mC := ⟨"HYSTERESIS_MC".toList, 2000, 0, 0, false⟩
  failsafe_pwm := ⟨"FAILSAFE_PWM".toList, 64, 0, 255, true⟩
  source_t_start_mC := ⟨"t_start".toList, 60000, -273150, 300000, true⟩
  source_t_full_mC := ⟨"t_full".toList, 80000, -273150, 300000, true⟩
  source_t_crit_mC := ⟨"t_crit".toList, 90000, -273150, 300000, true⟩
  source_ttl_sec := ⟨"ttl".toList, 10, 1, 0, false⟩
  source_poll_sec := ⟨"poll".toList, 2, 1, 0, false⟩
  source_weight := ⟨"weight".toList, 100, 1, 200, true⟩
  source_types := ["sysfs".toList, "ubus".toList]
  source_templates :=
    [⟨"soc".toList, "sysfs".toList, "/sys/class/thermal/thermal_zone0/temp".toList,
      [], [], [], [], 60000, 82000, 90000, 6, 1, 100⟩,
     ⟨"nvme".toList, "sysfs".toList, "/sys/class/nvme/nvme0/hwmon1/temp1_input".toList,
      [], [], [], [], 50000, 70000, 80000, 6, 1, 120⟩,
     ⟨"rm500q-gl".toList, "ubus".toList, [],
      "qmodem".toList, "get_temperature".toList, "temp_mC".toList,
      chLBrace :: chQuote :: "config_section".toList ++ chQuote :: ':' :: chQuote ::
        "2_1".toList ++ chQuote :: chRBrace :: [],
      58000, 76000, 85000, 20, 10, 130⟩]

def enum_contains (spec : EnumFieldSpec) (value : List Char) : Bool :=
  spec.allowed_values.any (fun v => v = value)

def ensure_int_in_range (name : List Char) (value min_value max_value : Int)
    (has_max : Bool) : Except String Unit :=
  if value < min_value then
    .error (String.mk name ++ " out of range (too small)")
  else if has_max ∧ value > max_value then
    .error (String.mk name ++ " out of range (too large)")
  else .ok ()

/-- `is_valid_source_id`: nonempty, `[A-Za-z0-9_-]` only. -/
def is_valid_source_id (id : List Char) : Bool :=
  !(id.isEmpty) && id.all (fun c => c_isalnum c || c = '_' || c = '-')

/-- Helper for `split_segments`: the current segment is collected in
reverse. -/
def split_segments_go : List Char → List Char → List (List Char)
  | [], acc => if acc = [] then [] else [acc.reverse]
  | c :: rest, acc =>
    if c = '/' then
      if acc = [] then split_segments_go rest []
      else acc.reverse :: split_segments_go rest []
    else split_segments_go rest (c :: acc)

/-- Segments of a path split at slashes, empty runs skipped (the index
walk in `canonicalize_path_text`). -/
def split_segments (s : List Char) : List (List Char) :=
  split_segments_go s []

/-- The `.`/`..` resolution walk: `parts` is kept reversed (head is the
C++ vector's `back()`). -/
def resolve_segments (absolute : Bool) : List (List Char) → List (List Char) →
    List (List Char)
  | [], parts => parts
  | seg :: rest, parts =>
    if seg = ['.'] then resolve_segments absolute rest parts
    else if seg = ['.', '.'] then
      match parts with
      | top :: parts2 =>
        if top ≠ ['.', '.'] then resolve_segments absolute rest parts2
        else if !absolute then resolve_segments absolute rest (seg :: parts)
        else resolve_segments absolute rest parts
      | [] =>
        if !absolute then resolve_segments absolute rest (seg :: parts)
        else resolve_segments absolute rest parts
    else resolve_segments absolute rest (seg :: parts)

def intercalate_slash : List (List Char) → List Char
  | [] => []
  | [p] => p
  | p :: q :: rest => p ++ '/' :: intercalate_slash (q :: rest)

/-- `canonicalize_path_text`. -/
def canonicalize_path_text (path : List Char) : List Char :=
  let inp := trim path
  if inp = [] then []
  else
    let absolute := inp.headD ' ' = '/'
    let parts := (resolve_segments absolute (split_segments inp) []).reverse
    let normalized := (if absolute then ['/'] else []) ++ intercalate_slash parts
    if normalized = [] then (if absolute then ['/'] else ['.'])
    else normalized

/-! ### Source-line tokenization (parse_csv_pairs, strip_inline_comment) -/

/-- State machine of `parse_csv_pairs`: split on commas outside quotes
and balanced braces/brackets; tokens are trimmed. `current` is collected
in reverse. -/
def csv_tokenize_go : List Char → List Char → Int → Int → Bool → Bool → Char →
    List (List Char)
  | [], current, _, _, _, _, _ => [trim current.reverse]
  | ch :: rest, current, brace_depth, bracket_depth, in_quote, escape, quote =>
    if in_quote then
      if escape then
        csv_tokenize_go rest (ch :: current) brace_depth bracket_depth true false quote
      else if ch = '\\' then
        csv_tokenize_go rest (ch :: current) brace_depth bracket_depth true true quote
      else if ch = quote then
        csv_tokenize_go rest (ch :: current) brace_depth bracket_depth false false quote
      else
        csv_tokenize_go rest (ch :: current) brace_depth bracket_depth true false quote
    else if ch = chQuote ∨ ch = chSQuote then
      csv_tokenize_go rest (ch :: current) brace_depth bracket_depth true false ch
    else
      let brace_depth :=
        if ch = chLBrace then brace_depth + 1
        else if ch = chRBrace ∧ brace_depth > 0 then brace_depth - 1
        else brace_depth
      let bracket_depth :=
        if ch = '[' then bracket_depth + 1
        else if ch = ']' ∧ bracket_depth > 0 then bracket_depth - 1
        else bracket_depth
      if ch = ',' ∧ brace_depth = 0 ∧ bracket_depth = 0 then
        trim current.reverse ::
          csv_tokenize_go rest [] brace_depth bracket_depth false false quote
      else
        csv_tokenize_go rest (ch :: current) brace_depth bracket_depth false false quote

def csv_tokenize (v : List Char) : List (List Char) :=
  csv_tokenize_go v [] 0 0 false false (Char.ofNat 0)

/-- Index of the first occurrence of `c`, if any (`std::string::find`). -/
def find_char (s : List Char) (c : Char) : Option Nat :=
  match s with
  | [] => none
  | x :: rest =>
    if x = c then some 0
    else match find_char rest c with
      | none => none
      | some i => some (i + 1)

/-- Build the `kv` map of `parse_csv_pairs` from the tokens: split each
nonempty token at its first `=`, trim both halves, reject bad tokens and
duplicate keys. -/
def csv_pairs_build : List (List Char) → List (List Char × List Char) →
    Except String (List (List Char × List Char))
  | [], kv => .ok kv
  | token_raw :: rest, kv =>
    let token := trim token_raw
    if token = [] then csv_pairs_build rest kv
    else
      match find_char token '=' with
      | none => .error ("bad source token: " ++ String.mk token)
      | some eq =>
        if eq = 0 ∨ eq + 1 ≥ token.length then
          .error ("bad source token: " ++ String.mk token)
        else
          let k := trim (token.take eq)
          let val := trim (token.drop (eq + 1))
          if k = [] then .error ("bad source token: " ++ String.mk token)
          else if (assoc_find kv k).isSome then
            .error ("duplicate source field: " ++ String.mk k)
          else csv_pairs_build rest (kv ++ [(k, val)])

def parse_csv_pairs (v : List Char) : Except String (List (List Char × List Char)) :=
  csv_pairs_build (csv_tokenize v) []

/-- `strip_inline_comment`: drop everything from the first `#` that sits
outside quotes and balanced braces/brackets. `out` is collected in
reverse. -/
def strip_inline_comment_go : List Char → List Char → Int → Int → Bool → Bool →
    Char → List Char
  | [], out, _, _, _, _, _ => out.reverse
  | ch :: rest, out, brace_depth, bracket_depth, in_quote, escape, quote =>
    if in_quote then
      if escape then
        strip_inline_comment_go rest (ch :: out) brace_depth bracket_depth true false quote
      else if ch = '\\' then
        strip_inline_comment_go rest (ch :: out) brace_depth bracket_depth true true quote
      else if ch = quote then
        strip_inline_comment_go rest (ch :: out) brace_depth bracket_depth false false quote
      else
        strip_inline_comment_go rest (ch :: out) brace_depth bracket_depth true false quote
    else if ch = chQuote ∨ ch = chSQuote then
      strip_inline_comment_go rest (ch :: out) brace_depth bracket_depth true false ch
    else
      let brace_depth :=
        if ch = chLBrace then brace_depth + 1
        else if ch = chRBrace ∧ brace_depth > 0 then brace_depth - 1
        else brace_depth
      let bracket_depth :=
        if ch = '[' then bracket_depth + 1
        else if ch = ']' ∧ bracket_depth > 0 then bracket_depth - 1
        else bracket_depth
      if ch = '#' ∧ brace_depth = 0 ∧ bracket_depth = 0 then out.reverse
      else strip_inline_comment_go rest (ch :: out) brace_depth bracket_depth false false quote

def strip_inline_comment (line : List Char) : List Char :=
  strip_inline_comment_go line [] 0 0 false false (Char.ofNat 0)

/-- `is_allowed_source_field`. -/
def is_allowed_source_field (type field : List Char) : Bool :=
  if field = "type".toList ∨ field = "t_start".toList ∨ field = "t_full".toList ∨
      field = "t_crit".toList ∨ field = "ttl".toList ∨ field = "poll".toList ∨
      field = "weight".toList then
    true
  else if type = "sysfs".toList then field = "path".toList
  else if type = "ubus".toList then
    field = "object".toList ∨ field = "method".toList ∨ field = "key".toList ∨
      field = "args".toList
  else false

/-- `source_resource_key` on a canonicalized source. -/
def source_resource_key (src : BoardSourceConfig) : List Char :=
  if src.type = "sysfs".toList then "sysfs:".toList ++ src.path
  else if src.type = "ubus".toList then
    "ubus:".toList ++ src.object ++ '|' :: src.method ++ '|' :: src.key ++
      '|' :: src.args_json
  else src.type ++ [':']

/-- `is_known_top_level_key`. -/
def is_known_top_level_key (key : List Char) : Bool :=
  key = board_config_spec.interval_sec.key ∨
    key = board_config_spec.control_mode.key ∨
    key = board_config_spec.pwm_path.key ∨
    key = board_config_spec.pwm_enable_path.key ∨
    key = board_config_spec.control_mode_path.key ∨
    key = board_config_spec.pwm_min.key ∨
    key = board_config_spec.pwm_max.key ∨
    key = board_config_spec.ramp_up.key ∨
    key = board_config_spec.ramp_down.key ∨
    key = board_config_spec.hysteresis_mC.key ∨
    key = board_config_spec.failsafe_pwm.key

/-- `default_board_config()`. -/
def default_board_config : BoardConfig :=
  { interval_sec := board_config_spec.interval_sec.default_value,
    control_mode := board_config_spec.control_mode.default_value,
    pwm_path := board_config_spec.pwm_path.default_value,
    pwm_enable_path := board_config_spec.pwm_enable_path.default_value,
    control_mode_path := board_config_spec.control_mode_path.default_value,
    pwm_min := board_config_spec.pwm_min.default_value,
    pwm_max := board_config_spec.pwm_max.default_value,
    ramp_up := board_config_spec.ramp_up.default_value,
    ramp_down := board_config_spec.ramp_down.default_value,
    hysteresis_mC := board_config_spec.hysteresis_mC.default_value,
    failsafe_pwm := board_config_spec.failsafe_pwm.default_value,
    sources := board_config_spec.source_templates.map (fun tpl =>
      { id := tpl.id, type := tpl.type, path := tpl.path, object := tpl.object,
        method := tpl.method, key := tpl.key, args_json := tpl.args_json,
        t_start_mC := tpl.t_start_mC, t_full_mC := tpl.t_full_mC,
        t_crit_mC := tpl.t_crit_mC, ttl_sec := tpl.ttl_sec,
        poll_sec := tpl.poll_sec, weight := tpl.weight }) }

/-! ### Source-line parsing and validation -/

def kv_count (kv : List (List Char × List Char)) (k : List Char) : Bool :=
  (assoc_find kv k).isSome

def kv_at (kv : List (List Char × List Char)) (k : List Char) : List Char :=
  (assoc_find kv k).getD []

/-- `parse_source_line`: build a `BoardSourceConfig` from one
`SOURCE_<id>=...` right-hand side; range checks are deferred to
validation except the ttl-default overflow guard. -/
def parse_source_line (id rhs : List Char) (fallback_poll_sec : Int) :
    Except String BoardSourceConfig := do
  let spec := board_config_spec
  let kv ← parse_csv_pairs rhs
  if !(kv_count kv "type".toList) then
    .error ("SOURCE_" ++ String.mk id ++ " missing required field: type")
  else
    let type := to_lower_ascii (trim (kv_at kv "type".toList))
    if h : (kv.all (fun entry => is_allowed_source_field type entry.1)) = false then
      .error ("unknown field for SOURCE_" ++ String.mk id)
    else do
      let poll_sec ← if kv_count kv "poll".toList then
          to_int (kv_at kv "poll".toList) "poll".toList
        else .ok fallback_poll_sec
      let ttl_sec ← if kv_count kv "ttl".toList then
          to_int (kv_at kv "ttl".toList) "ttl".toList
        else
          let ttl_default := max (poll_sec * 2) (fallback_poll_sec * 2)
          if ttl_default < -2147483648 ∨ ttl_default > 2147483647 then
            .error ("ttl default is out of range for SOURCE_" ++ String.mk id)
          else .ok ttl_default
      let weight ← if kv_count kv "weight".toList then
          to_int (kv_at kv "weight".toList) "weight".toList
        else .ok spec.source_weight.default_value
      let t_start ← if kv_count kv "t_start".toList then
          to_int (kv_at kv "t_start".toList) "t_start".toList
        else .ok spec.source_t_start_mC.default_value
      let t_full ← if kv_count kv "t_full".toList then
          to_int (kv_at kv "t_full".toList) "t_full".toList
        else .ok spec.source_t_full_mC.default_value
      let t_crit ← if kv_count kv "t_crit".toList then
          to_int (kv_at kv "t_crit".toList) "t_crit".toList
        else .ok spec.source_t_crit_mC.default_value
      let base : BoardSourceConfig :=
        { id := trim id, type := type, t_start_mC := t_start, t_full_mC := t_full,
          t_crit_mC := t_crit, ttl_sec := ttl_sec, poll_sec := poll_sec,
          weight := weight }
      if type = "sysfs".toList then
        .ok { base with
          path := if kv_count kv "path".toList then trim (kv_at kv "path".toList) else [] }
      else if type = "ubus".toList then
        .ok { base with
          object := if kv_count kv "object".toList then trim (kv_at kv "object".toList) else [],
          method := if kv_count kv "method".toList then trim (kv_at kv "method".toList) else [],
          key := if kv_count kv "key".toList then trim (kv_at kv "key".toList) else [],
          args_json := if kv_count kv "args".toList then trim (kv_at kv "args".toList)
            else [chLBrace, chRBrace] }
      else
        .error ("unsupported source type for SOURCE_" ++ String.mk id ++ ": " ++
          String.mk type)

/-- The per-source canonicalization and checks of `validate_board_config`
up to (but excluding) the duplicate-id and duplicate-resource checks,
in the loop's order: trims, id pattern, poll/ttl/weight/threshold ranges,
then the type-specific path/args canonicalization. The id-pattern check
precedes the range checks; the duplicate-id check sits between them and
is handled by the loop itself. -/
def validate_one_source_pre (src : BoardSourceConfig) :
    Except String BoardSourceConfig := do
  let spec := board_config_spec
  let src := { src with
    id := trim src.id, type := to_lower_ascii (trim src.type), path := trim src.path,
    object := trim src.object, method := trim src.method, key := trim src.key,
    args_json := trim src.args_json }
  if !(is_valid_source_id src.id) then
    .error ("invalid SOURCE id: " ++ String.mk src.id)
  else .ok src

def validate_one_source_main (src : BoardSourceConfig) :
    Except String BoardSourceConfig := do
  let spec := board_config_spec
  if src.poll_sec < spec.source_poll_sec.min_value then
    .error ("SOURCE_" ++ String.mk src.id ++ " poll must be >= 1")
  else if spec.source_poll_sec.has_max ∧ src.poll_sec > spec.source_poll_sec.max_value then
    .error ("SOURCE_" ++ String.mk src.id ++ " poll too large")
  else if src.ttl_sec < spec.source_ttl_sec.min_value then
    .error ("SOURCE_" ++ String.mk src.id ++ " ttl must be >= 1")
  else if src.ttl_sec < src.poll_sec then
    .error ("SOURCE_" ++ String.mk src.id ++ " ttl must be >= poll")
  else if src.weight < spec.source_weight.min_value ∨
      (spec.source_weight.has_max ∧ src.weight > spec.source_weight.max_value) then
    .error ("SOURCE_" ++ String.mk src.id ++ " weight out of range")
  else if src.t_start_mC < spec.source_t_start_mC.min_value ∨
      (spec.source_t_start_mC.has_max ∧
        src.t_start_mC > spec.source_t_start_mC.max_value) then
    .error ("SOURCE_" ++ String.mk src.id ++ " t_start out of allowed range")
  else if src.t_full_mC < spec.source_t_full_mC.min_value ∨
      (spec.source_t_full_mC.has_max ∧
        src.t_full_mC > spec.source_t_full_mC.max_value) then
    .error ("SOURCE_" ++ String.mk src.id ++ " t_full out of allowed range")
  else if src.t_crit_mC < spec.source_t_crit_mC.min_value ∨
      (spec.source_t_crit_mC.has_max ∧
        src.t_crit_mC > spec.source_t_crit_mC.max_value) then
    .error ("SOURCE_" ++ String.mk src.id ++ " t_crit out of allowed range")
  else if !(src.t_start_mC < src.t_full_mC ∧ src.t_full_mC ≤ src.t_crit_mC) then
    .error ("invalid thermal thresholds for SOURCE_" ++ String.mk src.id)
  else if src.type = "sysfs".toList then
    if src.path = [] then
      .error ("SOURCE_" ++ String.mk src.id ++ " missing required field: path")
    else
      let path := canonicalize_path_text src.path
      if path = [] ∨ path = ['.'] ∨ path.headD ' ' ≠ '/' then
        .error ("SOURCE_" ++ String.mk src.id ++ " path must be an absolute sysfs path")
      else
        .ok { src with path := path, object := [], method := [], key := [], args_json := [] }
  else if src.type = "ubus".toList then
    if src.object = [] ∨ src.method = [] ∨ src.key = [] then
      .error ("SOURCE_" ++ String.mk src.id ++ " missing required fields for ubus")
    else do
      let args := if src.args_json = [] then [chLBrace, chRBrace] else src.args_json
      let canon ← canonicalize_json_object_text args
        ("SOURCE_" ++ String.mk src.id ++ " args")
      .ok { src with args_json := canon, path := [] }
  else
    .error ("unsupported source type for SOURCE_" ++ String.mk src.id ++ ": " ++
      String.mk src.type)

/-- The source loop of `validate_board_config`, threading the
seen-ids set and the resource-owner map. -/
def validate_sources : List BoardSourceConfig → List (List Char) →
    List (List Char × List Char) → Except String (List BoardSourceConfig)
  | [], _, _ => .ok []
  | src :: rest, seen_ids, seen_resources => do
    let src ← validate_one_source_pre src
    if seen_ids.contains src.id then
      .error ("duplicate SOURCE id: " ++ String.mk src.id)
    else do
      let src ← validate_one_source_main src
      let resource := source_resource_key src
      match assoc_find seen_resources resource with
      | some owner =>
        .error ("duplicate source resource: SOURCE_" ++ String.mk src.id ++
          " conflicts with SOURCE_" ++ String.mk owner)
      | none => do
        let rest ← validate_sources rest (src.id :: seen_ids)
          (seen_resources ++ [(resource, src.id)])
        .ok (src :: rest)

/-- `validate_board_config`: canonicalize and check the whole profile,
returning the mutated configuration. -/
def validate_board_config (cfg : BoardConfig) : Except String BoardConfig := do
  let spec := board_config_spec
  let control_mode := to_lower_ascii (trim cfg.control_mode)
  let control_mode := if control_mode = [] then spec.control_mode.default_value
    else control_mode
  if !(enum_contains spec.control_mode control_mode) then
    .error "CONTROL_MODE must be one of: kernel, user"
  else do
    let pwm_path := trim cfg.pwm_path
    let pwm_enable_path := trim cfg.pwm_enable_path
    let control_mode_path := trim cfg.control_mode_path
    let _ ← ensure_int_in_range spec.interval_sec.key cfg.interval_sec
      spec.interval_sec.min_value spec.interval_sec.max_value spec.interval_sec.has_max
    if pwm_path = [] then
      .error "missing mandatory setting: PWM_PATH"
    else do
      let pwm_enable_path := if pwm_enable_path = [] then pwm_path ++ "_enable".toList
        else pwm_enable_path
      let control_mode_path := if control_mode_path = [] then
          spec.control_mode_path.default_value
        else control_mode_path
      let _ ← ensure_int_in_range spec.pwm_min.key cfg.pwm_min
        spec.pwm_min.min_value spec.pwm_min.max_value spec.pwm_min.has_max
      let _ ← ensure_int_in_range spec.pwm_max.key cfg.pwm_max
        spec.pwm_max.min_value spec.pwm_max.max_value spec.pwm_max.has_max
      let _ ← ensure_int_in_range spec.failsafe_pwm.key cfg.failsafe_pwm
        spec.failsafe_pwm.min_value spec.failsafe_pwm.max_value spec.failsafe_pwm.has_max
      let _ ← ensure_int_in_range spec.ramp_up.key cfg.ramp_up
        spec.ramp_up.min_value spec.ramp_up.max_value spec.ramp_up.has_max
      let _ ← ensure_int_in_range spec.ramp_down.key cfg.ramp_down
        spec.ramp_down.min_value spec.ramp_down.max_value spec.ramp_down.has_max
      let _ ← ensure_int_in_range spec.hysteresis_mC.key cfg.hysteresis_mC
        spec.hysteresis_mC.min_value spec.hysteresis_mC.max_value
        spec.hysteresis_mC.has_max
      let sources ← validate_sources cfg.sources [] []
      if sources.isEmpty then
        .error "no SOURCE_* entries found in board config"
      else
        .ok { cfg with
          control_mode := control_mode, pwm_path := pwm_path,
          pwm_enable_path := pwm_enable_path, control_mode_path := control_mode_path,
          sources := sources }

/-! ### Rendering and loading the configuration text -/

/-- One rendered source line (without the newline). -/
def render_source_line (src : BoardSourceConfig) : List Char :=
  "SOURCE_".toList ++ src.id ++ '=' :: "type=".toList ++ src.type ++
    (if src.type = "sysfs".toList then ",path=".toList ++ src.path
     else ",object=".toList ++ src.object ++ ",method=".toList ++ src.method ++
       ",key=".toList ++ src.key ++ ",args=".toList ++ src.args_json) ++
    ",t_start=".toList ++ int_to_text src.t_start_mC ++
    ",t_full=".toList ++ int_to_text src.t_full_mC ++
    ",t_crit=".toList ++ int_to_text src.t_crit_mC ++
    ",ttl=".toList ++ int_to_text src.ttl_sec ++
    ",poll=".toList ++ int_to_text src.poll_sec ++
    ",weight=".toList ++ int_to_text src.weight

/-- `render_board_config_text`. -/
def render_board_config_text (cfg : BoardConfig) : List Char :=
  "# Configuration file generated by fancontrol\n".toList ++
    "INTERVAL=".toList ++ int_to_text cfg.interval_sec ++ '\n' ::
    "CONTROL_MODE=".toList ++ cfg.control_mode ++ '\n' ::
    "PWM_PATH=".toList ++ cfg.pwm_path ++ '\n' ::
    "PWM_ENABLE_PATH=".toList ++ cfg.pwm_enable_path ++ '\n' ::
    "CONTROL_MODE_PATH=".toList ++ cfg.control_mode_path ++ '\n' ::
    "PWM_MIN=".toList ++ int_to_text cfg.pwm_min ++ '\n' ::
    "PWM_MAX=".toList ++ int_to_text cfg.pwm_max ++ '\n' ::
    "RAMP_UP=".toList ++ int_to_text cfg.ramp_up ++ '\n' ::
    "RAMP_DOWN=".toList ++ int_to_text cfg.ramp_down ++ '\n' ::
    "HYSTERESIS_MC=".toList ++ int_to_text cfg.hysteresis_mC ++ '\n' ::
    "FAILSAFE_PWM=".toList ++ int_to_text cfg.failsafe_pwm ++ '\n' ::
    (cfg.sources.foldr (fun src acc => render_source_line src ++ '\n' :: acc) [])

/-- Accumulated state of `load_board_config`'s line loop: the plain
top-level map and the raw `SOURCE_` lines in order. -/
structure LoadLines where
  plain : List (List Char × List Char) := []
  sources : List (List Char × List Char) := []
  deriving Repr, DecidableEq

/-- The line loop of `load_board_config`. -/
def load_config_lines : List (List Char) → LoadLines → Except String LoadLines
  | [], st => .ok st
  | line :: rest, st =>
    let line := trim (strip_inline_comment line)
    if line = [] then load_config_lines rest st
    else
      match find_char line '=' with
      | none => .error "invalid config line: missing equals sign"
      | some eq =>
        let key := trim (line.take eq)
        let value := trim (line.drop (eq + 1))
        if key.take 7 = "SOURCE_".toList ∧ key.length > 7 then
          load_config_lines rest { st with sources := st.sources ++ [(key.drop 7, value)] }
        else if !(is_known_top_level_key key) then
          .error ("unknown top-level key: " ++ String.mk key)
        else if (assoc_find st.plain key).isSome then
          .error ("duplicate top-level key: " ++ String.mk key)
        else
          load_config_lines rest { st with plain := st.plain ++ [(key, value)] }

def plain_get (plain : List (List Char × List Char)) (key : List Char) :
    Option (List Char) :=
  assoc_find plain key

def plain_int (plain : List (List Char × List Char)) (key : List Char)
    (current : Int) : Except String Int :=
  match plain_get plain key with
  | none => .ok current
  | some v => to_int v key

/-- Parse every stored `SOURCE_` line in order. -/
def parse_source_lines (fallback_poll_sec : Int) :
    List (List Char × List Char) → Except String (List BoardSourceConfig)
  | [] => .ok []
  | (id, rhs) :: rest => do
    let src ← parse_source_line id rhs fallback_poll_sec
    let more ← parse_source_lines fallback_poll_sec rest
    .ok (src :: more)

/-- `load_board_config`, with the file contents passed directly: split
into lines, strip comments, collect keys, overlay the defaults, parse the
source lines and validate. -/
def load_board_config_text (content : List Char) : Except String BoardConfig := do
  let spec := board_config_spec
  let st ← load_config_lines (getlines content) {}
  let base := default_board_config
  let interval ← plain_int st.plain spec.interval_sec.key base.interval_sec
  let pwm_min ← plain_int st.plain spec.pwm_min.key base.pwm_min
  let pwm_max ← plain_int st.plain spec.pwm_max.key base.pwm_max
  let ramp_up ← plain_int st.plain spec.ramp_up.key base.ramp_up
  let ramp_down ← plain_int st.plain spec.ramp_down.key base.ramp_down
  let hysteresis ← plain_int st.plain spec.hysteresis_mC.key base.hysteresis_mC
  let failsafe ← plain_int st.plain spec.failsafe_pwm.key base.failsafe_pwm
  let cfg : BoardConfig :=
    { interval_sec := interval,
      control_mode := (plain_get st.plain spec.control_mode.key).getD base.control_mode,
      pwm_path := (plain_get st.plain spec.pwm_path.key).getD base.pwm_path,
      pwm_enable_path :=
        (plain_get st.plain spec.pwm_enable_path.key).getD base.pwm_enable_path,
      control_mode_path :=
        (plain_get st.plain spec.control_mode_path.key).getD base.control_mode_path,
      pwm_min := pwm_min, pwm_max := pwm_max, ramp_up := ramp_up,
      ramp_down := ramp_down, hysteresis_mC := hysteresis, failsafe_pwm := failsafe,
      sources := [] }
  let sources ← parse_source_lines cfg.interval_sec st.sources
  validate_board_config { cfg with sources := sources }

/-- The round-trip property as the specification states it: validate the
profile, render it, reload the rendered text and render again; `true`
when both renders agree byte-for-byte (written from the spec sentence,
to be compared against the code's behaviour). -/
def roundtrip_stable (cfg : BoardConfig) : Bool :=
  match validate_board_config cfg with
  | .error _ => false
  | .ok c =>
    match load_board_config_text (render_board_config_text c) with
    | .error _ => false
    | .ok c2 => render_board_config_text c2 = render_board_config_text c

/-! ### Duplicate-resource rejection (C7 machinery) -/

/-- The canonicalization pipeline one source goes through inside
`validate_board_config`'s loop, without the duplicate-id and
duplicate-resource bookkeeping. -/
def source_canon (src : BoardSourceConfig) : Except String BoardSourceConfig := do
  let s ← validate_one_source_pre src
  validate_one_source_main s

/-! ### RPC apply-config path (write_validated_config_from_rpc_json) -/

/-- `sanitize_field`: drop CR, LF and semicolons, then trim. -/
def sanitize_field (s : List Char) : List Char :=
  trim (s.filter (fun c => ¬(c = '\r' ∨ c = '\n' ∨ c = ';')))

/-- `json_value_to_text`: stringify one field of a JSON object (missing,
null and composite values give the empty string). -/
def json_value_to_text (obj : Json) (key : List Char) : List Char :=
  match obj with
  | .obj fields =>
    match json_obj_find fields key with
    | none => []
    | some .null => []
    | some (.str t) => t
    | some (.bool b) => if b then ['1'] else ['0']
    | some (.num n) => int_to_text n
    | some (.arr _) => []
    | some (.obj _) => []
  | _ => []

/-- `normalize_control_mode`. -/
def normalize_control_mode (raw : List Char) : Except String (List Char) :=
  let r := to_lower_ascii (sanitize_field raw)
  if r = "kernel".toList ∨ r = "user".toList then .ok r
  else .error "CONTROL_MODE must be one of: kernel, user"

/-- `parse_bool01`. -/
def parse_bool01 (raw : List Char) (d : Int) (name : String) : Except String Int :=
  let r := to_lower_ascii (sanitize_field raw)
  if r = [] then .ok d
  else if r = ['1'] ∨ r = "true".toList then .ok 1
  else if r = ['0'] ∨ r = "false".toList then .ok 0
  else .error (name ++ " must be boolean (0/1/true/false)")

/-- `parse_optional_int`: trimmed-empty means absent; otherwise the same
full-consumption `stoll` + `int` range semantics (and the same error
text) as `to_int`. -/
def parse_optional_int (raw : List Char) (name : List Char) :
    Except String (Option Int) :=
  let t := trim raw
  if t = [] then .ok none
  else (to_int t name).map some

/-- `parse_optional_bool01`. -/
def parse_optional_bool01 (raw : List Char) (name : String) :
    Except String (Option Int) :=
  let r := to_lower_ascii (sanitize_field raw)
  if r = [] then .ok none
  else (parse_bool01 r 0 name).map some

/-- `make_rpc_source_defaults`. -/
def make_rpc_source_defaults (interval_sec : Int) : BoardSourceConfig :=
  let spec := board_config_spec
  let poll := max interval_sec spec.source_poll_sec.min_value
  { id := [], type := [], path := [], object := [], method := [], key := [],
    args_json := [chLBrace, chRBrace],
    t_start_mC := spec.source_t_start_mC.default_value,
    t_full_mC := spec.source_t_full_mC.default_value,
    t_crit_mC := spec.source_t_crit_mC.default_value,
    ttl_sec := max (poll * 2) (interval_sec * 2),
    poll_sec := poll,
    weight := spec.source_weight.default_value }

/-- The per-entry loop body of `parse_sources_from_rpc_payload`. -/
def parse_rpc_source_entries : List Json → Int →
    Except String (List BoardSourceConfig)
  | [], _ => .ok []
  | entry :: rest, interval_sec =>
    match entry with
    | .obj _ => do
      let enabled ← parse_optional_bool01
        (json_value_to_text entry "enabled".toList) "enabled"
      if enabled = some 0 then
        parse_rpc_source_entries rest interval_sec
      else do
        let base := make_rpc_source_defaults interval_sec
        let args0 := sanitize_field (json_value_to_text entry "args".toList)
        let src := { base with
          id := sanitize_field (json_value_to_text entry "id".toList),
          type := to_lower_ascii
            (sanitize_field (json_value_to_text entry "type".toList)),
          path := sanitize_field (json_value_to_text entry "path".toList),
          object := sanitize_field (json_value_to_text entry "object".toList),
          method := sanitize_field (json_value_to_text entry "method".toList),
          key := sanitize_field (json_value_to_text entry "key".toList),
          args_json := if args0 = [] then [chLBrace, chRBrace] else args0 }
        let v ← parse_optional_int (json_value_to_text entry "t_start".toList)
          "t_start".toList
        let src := match v with
          | some v => { src with t_start_mC := v }
          | none => src
        let v ← parse_optional_int (json_value_to_text entry "t_full".toList)
          "t_full".toList
        let src := match v with
          | some v => { src with t_full_mC := v }
          | none => src
        let v ← parse_optional_int (json_value_to_text entry "t_crit".toList)
          "t_crit".toList
        let src := match v with
          | some v => { src with t_crit_mC := v }
          | none => src
        let v ← parse_optional_int (json_value_to_text entry "poll".toList)
          "poll".toList
        let src := match v with
          | some v => { src with poll_sec := v }
          | none => src
        let has_ttl := trim (json_value_to_text entry "ttl".toList) ≠ []
        let v ← parse_optional_int (json_value_to_text entry "ttl".toList)
          "ttl".toList
        let src := match v with
          | some v => { src with ttl_sec := v }
          | none =>
            if has_ttl then src
            else { src with ttl_sec := max (src.poll_sec * 2) (interval_sec * 2) }
        let v ← parse_optional_int (json_value_to_text entry "weight".toList)
          "weight".toList
        let src := match v with
          | some v => { src with weight := v }
          | none => src
        let tail ← parse_rpc_source_entries rest interval_sec
        .ok (src :: tail)
    | _ => .error "sources[] items must be JSON objects"

/-- `parse_sources_from_rpc_payload`. -/
def parse_sources_from_rpc_payload (payload : Json) (interval_sec : Int) :
    Except String (List BoardSourceConfig) :=
  match payload with
  | .obj fields =>
    match json_obj_find fields "sources".toList with
    | none => .ok []
    | some (.arr entries) => parse_rpc_source_entries entries interval_sec
    | some _ => .error "sources must be a JSON array"
  | _ => .ok []

/-- Whether the payload object carries a `sources` field at all. -/
def rpc_payload_has_sources (payload : Json) : Bool :=
  match payload with
  | .obj fields => (json_obj_find fields "sources".toList).isSome
  | _ => false

/-- `render_board_config_from_rpc_json`: overlay the payload over the
default profile, validate, and render the canonicalized text. -/
def render_board_config_from_rpc_json (payload : Json) :
    Except String (List Char) := do
  let cfg := default_board_config
  let v ← parse_optional_int (json_value_to_text payload "interval".toList)
    "INTERVAL".toList
  let cfg := match v with
    | some v => { cfg with interval_sec := v }
    | none => cfg
  let control_mode_raw := json_value_to_text payload "control_mode".toList
  let cfg ← if trim control_mode_raw = [] then pure cfg
    else do
      let m ← normalize_control_mode control_mode_raw
      pure { cfg with control_mode := m }
  let pwm_path := sanitize_field (json_value_to_text payload "pwm_path".toList)
  let cfg := if pwm_path = [] then cfg else { cfg with pwm_path := pwm_path }
  let pwm_enable_path := sanitize_field
    (json_value_to_text payload "pwm_enable_path".toList)
  let cfg := if pwm_enable_path = [] then cfg
    else { cfg with pwm_enable_path := pwm_enable_path }
  let control_mode_path := sanitize_field
    (json_value_to_text payload "control_mode_path".toList)
  let cfg := if control_mode_path = [] then cfg
    else { cfg with control_mode_path := control_mode_path }
  let v ← parse_optional_int (json_value_to_text payload "pwm_min".toList)
    "PWM_MIN".toList
  let cfg := match v with
    | some v => { cfg with pwm_min := v }
    | none => cfg
  let v ← parse_optional_int (json_value_to_text payload "pwm_max".toList)
    "PWM_MAX".toList
  let cfg := match v with
    | some v => { cfg with pwm_max := v }
    | none => cfg
  let v ← parse_optional_int (json_value_to_text payload "ramp_up".toList)
    "RAMP_UP".toList
  let cfg := match v with
    | some v => { cfg with ramp_up := v }
    | none => cfg
  let v ← parse_optional_int (json_value_to_text payload "ramp_down".toList)
    "RAMP_DOWN".toList
  let cfg := match v with
    | some v => { cfg with ramp_down := v }
    | none => cfg
  let v ← parse_optional_int (json_value_to_text payload "hysteresis_mC".toList)
    "HYSTERESIS_MC".toList
  let cfg := match v with
    | some v => { cfg with hysteresis_mC := v }
    | none => cfg
  let v ← parse_optional_int (json_value_to_text payload "failsafe_pwm".toList)
    "FAILSAFE_PWM".toList
  let cfg := match v with
    | some v => { cfg with failsafe_pwm := v }
    | none => cfg
  let cfg ← if rpc_payload_has_sources payload then do
      let srcs ← parse_sources_from_rpc_payload payload cfg.interval_sec
      pure { cfg with sources := srcs }
    else pure cfg
  let cfg ← validate_board_config cfg
  .ok (render_board_config_text cfg)

/-! ### Filesystem model for the atomic-commit path

A flat path-to-content map. `mkstemp` is modelled as producing
`<config>.tmp.<suffix>` for an arbitrary suffix; `chmod` does not change
contents and `rename` is the atomic erase-temp-and-write-target step.
The OS error paths of `mkstemp`/`chmod`/`rename` themselves are not
modelled (each of them also leaves the committed file untouched). -/

def FS : Type := List (List Char × List Char)

def fs_erase (fs : FS) (p : List Char) : FS :=
  fs.filter (fun e => ¬(e.1 = p))

def fs_write (fs : FS) (p c : List Char) : FS :=
  (p, c) :: fs_erase fs p

def fs_read (fs : FS) (p : List Char) : Option (List Char) :=
  assoc_find fs p

/-- `write_validated_config_from_rpc_json`: parse the payload, render and
validate, write the text to a fresh temp file, validate it again by
reloading the temp file, then atomically rename it over the committed
configuration; any failure after the temp write unlinks the temp file. -/
def write_validated_config_from_rpc_json (fs : FS) (config_path : List Char)
    (payload_text : List Char) (temp_suffix : List Char) :
    FS × Except String Unit :=
  match json_parse payload_text with
  | .error e => (fs, .error ("invalid rpc payload json: " ++ e))
  | .ok payload =>
    match payload with
    | .obj _ =>
      match render_board_config_from_rpc_json payload with
      | .error e => (fs, .error e)
      | .ok rendered =>
        let temp_path := config_path ++ (".tmp.".toList ++ temp_suffix)
        let fs := fs_write fs temp_path rendered
        match load_board_config_text ((fs_read fs temp_path).getD []) with
        | .error e => (fs_erase fs temp_path, .error e)
        | .ok _ =>
          (fs_write (fs_erase fs temp_path) config_path rendered, .ok ())
    | _ => (fs, .error "rpc payload must be a JSON object")

/-- A concrete RPC payload whose single source has an id containing a
space: sanitize keeps interior spaces, so the id fails
`is_valid_source_id` during validation. -/
def c9_payload_text : List Char :=
  [chLBrace, chQuote] ++ "sources".toList ++ [chQuote, ':', '['] ++
    [chLBrace, chQuote] ++ "id".toList ++ [chQuote, ':', chQuote] ++
    "a b".toList ++ [chQuote, ','] ++
    [chQuote] ++ "type".toList ++ [chQuote, ':', chQuote] ++ "sysfs".toList ++
    [chQuote, ','] ++
    [chQuote] ++ "path".toList ++ [chQuote, ':', chQuote] ++ "/t".toList ++
    [chQuote, chRBrace] ++ [']', chRBrace]

/-- A profile that `validate_board_config` accepts verbatim although its
`PWM_PATH` contains a `#`. -/
def c6_cfg_bad : BoardConfig :=
  { interval_sec := 2, control_mode := "user".toList, pwm_path := "/a#b".toList,
    pwm_enable_path := "/pe".toList, control_mode_path := "/m".toList,
    pwm_min := 0, pwm_max := 255, ramp_up := 5, ramp_down := 10,
    hysteresis_mC := 2000, failsafe_pwm := 64,
    sources := [⟨['s'], "sysfs".toList, "/t".toList, [], [], [], [], 1, 2, 3, 4, 2, 100⟩] }

/-! ### Facts about the demand policy -/

theorem clamp_pwm_le (cfg : BoardConfig) (pwm : Int) :
    clamp_pwm cfg pwm ≤ max cfg.pwm_min cfg.pwm_max := by
  unfold clamp_pwm
  dsimp only
  omega

theorem clamp_pwm_ge (cfg : BoardConfig) (pwm : Int) :
    min cfg.pwm_min cfg.pwm_max ≤ clamp_pwm cfg pwm := by
  unfold clamp_pwm
  dsimp only
  omega

theorem pwm_min_mem_span (cfg : BoardConfig) :
    min cfg.pwm_min cfg.pwm_max ≤ cfg.pwm_min ∧
      cfg.pwm_min ≤ max cfg.pwm_min cfg.pwm_max :=
  ⟨min_le_left _ _, le_max_left _ _⟩

theorem pwm_max_mem_span (cfg : BoardConfig) :
    min cfg.pwm_min cfg.pwm_max ≤ cfg.pwm_max ∧
      cfg.pwm_max ≤ max cfg.pwm_min cfg.pwm_max :=
  ⟨min_le_right _ _, le_max_right _ _⟩

/-- Every value `demand_from_source` can return is the idle PWM, the full
PWM, or a clamped value. -/
theorem demand_from_source_bounds (cfg : BoardConfig) (src : BoardSourceConfig)
    (temp_mC : Int) (active : Bool) :
    min cfg.pwm_min cfg.pwm_max ≤ (demand_from_source cfg src temp_mC active).pwm ∧
      (demand_from_source cfg src temp_mC active).pwm ≤ max cfg.pwm_min cfg.pwm_max := by
  unfold demand_from_source
  dsimp only
  split
  · exact ⟨(pwm_max_mem_span cfg).1, (pwm_max_mem_span cfg).2⟩
  · split
    · exact ⟨(pwm_min_mem_span cfg).1, (pwm_min_mem_span cfg).2⟩
    · exact ⟨clamp_pwm_ge cfg _, clamp_pwm_le cfg _⟩

theorem active_step_stays_active (cfg : BoardConfig) (src : BoardSourceConfig)
    (temp_mC : Int) (h : src.t_start_mC - cfg.hysteresis_mC < temp_mC) :
    active_step cfg src temp_mC true = true := by
  unfold active_step demand_from_source
  dsimp only
  split
  · rfl
  · have : ¬ temp_mC ≤ src.t_start_mC - cfg.hysteresis_mC := by omega
    simp [this]

/-- C2: at or above `t_crit`, the demand is the max-cooling PWM with
`critical = true` and `active = true`, whatever the prior flag was. -/
theorem demand_from_source_critical_override (cfg : BoardConfig)
    (src : BoardSourceConfig) (temp_mC : Int) (active : Bool)
    (h : temp_mC ≥ src.t_crit_mC) :
    demand_from_source cfg src temp_mC active =
      ⟨max_cooling_pwm cfg, true, true⟩ := by
  unfold demand_from_source
  simp [h]

theorem demand_from_source_critical_override_witness :
    (60000 : Int) ≥ (⟨[], [], [], [], [], [], [], 40000, 50000, 60000, 6, 1, 100⟩ :
        BoardSourceConfig).t_crit_mC ∧
      demand_from_source ⟨1, [], [], [], [], 0, 255, 5, 10, 2000, 64, []⟩
          ⟨[], [], [], [], [], [], [], 40000, 50000, 60000, 6, 1, 100⟩ 60000 false =
        ⟨max_cooling_pwm ⟨1, [], [], [], [], 0, 255, 5, 10, 2000, 64, []⟩, true, true⟩ :=
  ⟨by decide,
    demand_from_source_critical_override _ _ 60000 false (by decide)⟩

/-- C4: once `active`, repeated calls at a constant temperature strictly
between `t_start - hysteresis` and `t_start + hysteresis` (and below
`t_crit`) leave the flag `true` — it never toggles. -/
theorem active_flag_hysteresis_idempotent (cfg : BoardConfig)
    (src : BoardSourceConfig) (temp_mC : Int)
    (hlow : src.t_start_mC - cfg.hysteresis_mC < temp_mC)
    (hhigh : temp_mC < src.t_start_mC + cfg.hysteresis_mC)
    (hcrit : temp_mC < src.t_crit_mC) :
    ∀ n : Nat, (active_step cfg src temp_mC)^[n] true = true := by
  intro n
  induction n with
  | zero => rfl
  | succ k ih =>
    rw [Function.iterate_succ_apply, active_step_stays_active cfg src temp_mC hlow]
    exact ih

theorem active_flag_hysteresis_idempotent_witness :
    ((⟨[], [], [], [], [], [], [], 40000, 50000, 60000, 6, 1, 100⟩ :
          BoardSourceConfig).t_start_mC -
        (⟨1, [], [], [], [], 0, 255, 5, 10, 2000, 64, []⟩ : BoardConfig).hysteresis_mC <
          (40500 : Int)) ∧
      (∀ n : Nat,
        (active_step ⟨1, [], [], [], [], 0, 255, 5, 10, 2000, 64, []⟩
            ⟨[], [], [], [], [], [], [], 40000, 50000, 60000, 6, 1, 100⟩ 40500)^[n] true = true) :=
  ⟨by decide,
    active_flag_hysteresis_idempotent _ _ 40500 (by decide) (by decide) (by decide)⟩

/-! ### Facts about the ramp controller -/

theorem clamp_pwm_idem (cfg : BoardConfig) (x : Int) :
    clamp_pwm cfg (clamp_pwm cfg x) = clamp_pwm cfg x := by
  unfold clamp_pwm
  dsimp only
  omega

theorem clamp_pwm_of_bounds (cfg : BoardConfig) (x : Int)
    (h1 : min cfg.pwm_min cfg.pwm_max ≤ x) (h2 : x ≤ max cfg.pwm_min cfg.pwm_max) :
    clamp_pwm cfg x = x := by
  unfold clamp_pwm
  dsimp only
  omega

theorem apply_ramp_at_target (cfg : BoardConfig) (cur tgt : Int)
    (acc : RampAccumulator) (h : clamp_pwm cfg tgt = clamp_pwm cfg cur) :
    apply_ramp cur tgt cfg acc = (clamp_pwm cfg cur, ⟨0, 0⟩) := by
  unfold apply_ramp
  simp [h]

theorem ramp_span_pos_of_ne (cfg : BoardConfig) (cur tgt : Int)
    (h : clamp_pwm cfg tgt ≠ clamp_pwm cfg cur) : 0 < ramp_span cfg := by
  unfold ramp_span
  rcases eq_or_ne cfg.pwm_max cfg.pwm_min with heq | hne2
  · exfalso
    apply h
    unfold clamp_pwm
    dsimp only
    omega
  · exact abs_pos.mpr (sub_ne_zero.mpr hne2)

theorem dist_le_of_between {bt bc p : Int} (h1 : min bc bt ≤ p)
    (h2 : p ≤ max bc bt) : |bt - p| ≤ |bt - bc| := by
  rcases le_total bc bt with h | h
  · rw [abs_of_nonneg (by omega), abs_of_nonneg (by omega)]
    omega
  · rw [abs_of_nonpos (by omega), abs_of_nonpos (by omega)]
    omega

theorem dist_lt_of_strictly_between {bt bc p : Int}
    (h : (bc < p ∧ p ≤ bt) ∨ (bt ≤ p ∧ p < bc)) : |bt - p| < |bt - bc| := by
  rcases h with ⟨h1, h2⟩ | ⟨h1, h2⟩
  · rw [abs_of_nonneg (by omega), abs_of_nonneg (by omega)]
    omega
  · rw [abs_of_nonpos (by omega), abs_of_nonpos (by omega)]
    omega

/-- Structural case split on one `apply_ramp` call when the current PWM is
not yet at the target: either the call returned a strictly closer PWM and
a well-formed accumulator, or it left the PWM in place and just banked one
tick of credit (which was still short of one full step). -/
theorem apply_ramp_step_cases (cfg : BoardConfig) (cur tgt : Int)
    (acc : RampAccumulator)
    (hne : clamp_pwm cfg tgt ≠ clamp_pwm cfg cur)
    (hs : 0 ≤ acc.stronger_credit) (hw : 0 ≤ acc.weaker_credit) :
    (0 ≤ (apply_ramp cur tgt cfg acc).2.stronger_credit ∧
        (apply_ramp cur tgt cfg acc).2.stronger_credit < 1 ∧
        0 ≤ (apply_ramp cur tgt cfg acc).2.weaker_credit ∧
        (apply_ramp cur tgt cfg acc).2.weaker_credit < 1) ∧
      ((|clamp_pwm cfg tgt - (apply_ramp cur tgt cfg acc).1| <
            |clamp_pwm cfg tgt - clamp_pwm cfg cur| ∧
          min (clamp_pwm cfg cur) (clamp_pwm cfg tgt) ≤ (apply_ramp cur tgt cfg acc).1 ∧
          (apply_ramp cur tgt cfg acc).1 ≤ max (clamp_pwm cfg cur) (clamp_pwm cfg tgt)) ∨
        ((apply_ramp cur tgt cfg acc).1 = clamp_pwm cfg cur ∧
          ramp_dir_credit acc
              (is_stronger_cooling_pwm (clamp_pwm cfg tgt) (clamp_pwm cfg cur) cfg) +
            ramp_per_tick cfg
              (is_stronger_cooling_pwm (clamp_pwm cfg tgt) (clamp_pwm cfg cur) cfg) < 1 ∧
          ramp_dir_credit (apply_ramp cur tgt cfg acc).2
              (is_stronger_cooling_pwm (clamp_pwm cfg tgt) (clamp_pwm cfg cur) cfg) =
            ramp_dir_credit acc
                (is_stronger_cooling_pwm (clamp_pwm cfg tgt) (clamp_pwm cfg cur) cfg) +
              ramp_per_tick cfg
                (is_stronger_cooling_pwm (clamp_pwm cfg tgt) (clamp_pwm cfg cur) cfg))) := by
  have hspan : ¬ ramp_span cfg ≤ 0 := by
    have := ramp_span_pos_of_ne cfg cur tgt hne
    omega
  unfold apply_ramp
  simp only [if_neg hne, if_neg hspan]
  set S := is_stronger_cooling_pwm (clamp_pwm cfg tgt) (clamp_pwm cfg cur) cfg with hS
  set C := ramp_dir_credit acc S + ramp_per_tick cfg S with hC
  have hcr : 0 ≤ ramp_dir_credit acc S := by
    unfold ramp_dir_credit
    split <;> assumption
  have hpt : 0 ≤ ramp_per_tick cfg S := by
    unfold ramp_per_tick
    apply div_nonneg
    · have h1 : (0 : Int) ≤ ramp_span cfg * max 1 cfg.interval_sec := by
        have h2 : (0 : Int) < ramp_span cfg := by omega
        have h3 : (1 : Int) ≤ max 1 cfg.interval_sec := le_max_left _ _
        positivity
      exact_mod_cast h1
    · have h2 : (0 : Int) ≤ max 1 (if S then cfg.ramp_up else cfg.ramp_down) := by
        have := le_max_left (1 : Int) (if S then cfg.ramp_up else cfg.ramp_down)
        omega
      exact_mod_cast h2
  have hC0 : 0 ≤ C := by rw [hC]; positivity
  clear_value S C
  by_cases hstep : ⌊C⌋ ≤ 0
  · simp only [if_pos hstep]
    have hlt : C < 1 := by
      have h1 := Int.lt_floor_add_one C
      have h2 : ((⌊C⌋ : Int) : Rat) ≤ 0 := by exact_mod_cast hstep
      linarith
    refine ⟨⟨?_, ?_, ?_, ?_⟩, Or.inr ⟨?_, hlt, ?_⟩⟩
    · split <;> dsimp only
      · exact hC0
      · rfl
    · split <;> dsimp only
      · exact hlt
      · norm_num
    · split <;> dsimp only
      · rfl
      · exact hC0
    · split <;> dsimp only
      · norm_num
      · exact hlt
    · trivial
    · by_cases hst : S = true
      · simp [ramp_dir_credit, hst]
      · simp only [Bool.not_eq_true] at hst
        simp [ramp_dir_credit, hst]
  · simp only [if_neg hstep]
    push_neg at hstep
    have hstep1 : (1 : Int) ≤ ⌊C⌋ := hstep
    have hs1 : (1 : Int) ≤ min ⌊C⌋ 1073741823 := by omega
    have hbc1 := clamp_pwm_ge cfg cur
    have hbc2 := clamp_pwm_le cfg cur
    have hbt1 := clamp_pwm_ge cfg tgt
    have hbt2 := clamp_pwm_le cfg tgt
    have hacc : 0 ≤ C - ((⌊C⌋ : Int) : Rat) := by
      have := Int.floor_le C
      linarith
    have hfrac : C - ((⌊C⌋ : Int) : Rat) < 1 := by
      have := Int.lt_floor_add_one C
      push_cast at this ⊢
      linarith
    by_cases hgt : clamp_pwm cfg tgt > clamp_pwm cfg cur
    · simp only [if_pos hgt]
      have hin1 : min cfg.pwm_min cfg.pwm_max ≤
          min (clamp_pwm cfg tgt) (clamp_pwm cfg cur + min ⌊C⌋ 1073741823) := by
        omega
      have hin2 : min (clamp_pwm cfg tgt) (clamp_pwm cfg cur + min ⌊C⌋ 1073741823) ≤
          max cfg.pwm_min cfg.pwm_max := by
        omega
      rw [clamp_pwm_of_bounds cfg _ hin1 hin2]
      refine ⟨⟨?_, ?_, ?_, ?_⟩, Or.inl ⟨?_, by omega, by omega⟩⟩
      · split <;> dsimp only
        · exact hacc
        · rfl
      · split <;> dsimp only
        · exact hfrac
        · norm_num
      · split <;> dsimp only
        · rfl
        · exact hacc
      · split <;> dsimp only
        · norm_num
        · exact hfrac
      · exact dist_lt_of_strictly_between (Or.inl ⟨by omega, by omega⟩)
    · simp only [if_neg hgt]
      have hlt2 : clamp_pwm cfg tgt < clamp_pwm cfg cur := by
        rcases lt_or_ge (clamp_pwm cfg tgt) (clamp_pwm cfg cur) with h | h
        · exact h
        · exact absurd (by omega : clamp_pwm cfg tgt = clamp_pwm cfg cur) hne
      have hin1 : min cfg.pwm_min cfg.pwm_max ≤
          max (clamp_pwm cfg tgt) (clamp_pwm cfg cur - min ⌊C⌋ 1073741823) := by
        omega
      have hin2 : max (clamp_pwm cfg tgt) (clamp_pwm cfg cur - min ⌊C⌋ 1073741823) ≤
          max cfg.pwm_min cfg.pwm_max := by
        omega
      rw [clamp_pwm_of_bounds cfg _ hin1 hin2]
      refine ⟨⟨?_, ?_, ?_, ?_⟩, Or.inl ⟨?_, by omega, by omega⟩⟩
      · split <;> dsimp only
        · exact hacc
        · rfl
      · split <;> dsimp only
        · exact hfrac
        · norm_num
      · split <;> dsimp only
        · rfl
        · exact hacc
      · split <;> dsimp only
        · norm_num
        · exact hfrac
      · exact dist_lt_of_strictly_between (Or.inr ⟨by omega, by omega⟩)

/-- Invariants preserved by iterating `apply_ramp` toward a fixed target
from an in-bounds PWM with nonnegative credit: the PWM stays in bounds,
the credit stays in `[0, 1)` componentwise after at least one call, and
the distance to the (clamped) target never grows. -/
theorem apply_ramp_iter_invariant (cfg : BoardConfig) (tgt : Int) :
    ∀ (n : Nat) (cur : Int) (acc : RampAccumulator),
      clamp_pwm cfg cur = cur →
      0 ≤ acc.stronger_credit → 0 ≤ acc.weaker_credit →
      clamp_pwm cfg (apply_ramp_iter cfg tgt n (cur, acc)).1 =
          (apply_ramp_iter cfg tgt n (cur, acc)).1 ∧
        0 ≤ (apply_ramp_iter cfg tgt n (cur, acc)).2.stronger_credit ∧
        0 ≤ (apply_ramp_iter cfg tgt n (cur, acc)).2.weaker_credit ∧
        |clamp_pwm cfg tgt - (apply_ramp_iter cfg tgt n (cur, acc)).1| ≤
          |clamp_pwm cfg tgt - cur| := by
  intro n
  induction n with
  | zero =>
    intro cur acc hcl hs hw
    exact ⟨hcl, hs, hw, le_refl _⟩
  | succ k ih =>
    intro cur acc hcl hs hw
    simp only [apply_ramp_iter]
    by_cases hne : clamp_pwm cfg tgt = clamp_pwm cfg cur
    · rw [apply_ramp_at_target cfg cur tgt acc hne, hcl]
      have h := ih cur ⟨0, 0⟩ hcl (le_refl 0) (le_refl 0)
      exact ⟨h.1, h.2.1, h.2.2.1, h.2.2.2⟩
    · obtain ⟨⟨ha1, ha2, ha3, ha4⟩, hcase⟩ := apply_ramp_step_cases cfg cur tgt acc hne hs hw
      have hbc1 := clamp_pwm_ge cfg cur
      have hbc2 := clamp_pwm_le cfg cur
      have hbt1 := clamp_pwm_ge cfg tgt
      have hbt2 := clamp_pwm_le cfg tgt
      have hpcl : clamp_pwm cfg (apply_ramp cur tgt cfg acc).1 =
          (apply_ramp cur tgt cfg acc).1 := by
        rcases hcase with ⟨_, hlo, hhi⟩ | ⟨hp, _, _⟩
        · exact clamp_pwm_of_bounds cfg _ (by omega) (by omega)
        · rw [hp]
          exact clamp_pwm_idem cfg cur
      have hdist : |clamp_pwm cfg tgt - (apply_ramp cur tgt cfg acc).1| ≤
          |clamp_pwm cfg tgt - cur| := by
        rcases hcase with ⟨hlt, _, _⟩ | ⟨hp, _, _⟩
        · rw [hcl] at hlt
          exact le_of_lt hlt
        · rw [hp, hcl]
      have h := ih (apply_ramp cur tgt cfg acc).1 (apply_ramp cur tgt cfg acc).2 hpcl ha1 ha3
      refine ⟨?_, ?_, ?_, ?_⟩
      · exact h.1
      · exact h.2.1
      · exact h.2.2.1
      · exact le_trans h.2.2.2 hdist

/-- Iterated strict progress: starting in bounds and not at the target,
once the banked directional credit plus `n + 1` ticks of per-tick credit
reaches one full PWM step, `n + 1` calls leave the PWM strictly closer to
the target. -/
theorem apply_ramp_iter_strict (cfg : BoardConfig) (tgt : Int) :
    ∀ (n : Nat) (cur : Int) (acc : RampAccumulator),
      clamp_pwm cfg cur = cur →
      0 ≤ acc.stronger_credit → 0 ≤ acc.weaker_credit →
      clamp_pwm cfg tgt ≠ clamp_pwm cfg cur →
      1 ≤ ramp_dir_credit acc
            (is_stronger_cooling_pwm (clamp_pwm cfg tgt) (clamp_pwm cfg cur) cfg) +
          (n + 1 : Nat) *
            ramp_per_tick cfg
              (is_stronger_cooling_pwm (clamp_pwm cfg tgt) (clamp_pwm cfg cur) cfg) →
      |clamp_pwm cfg tgt - (apply_ramp_iter cfg tgt (n + 1) (cur, acc)).1| <
        |clamp_pwm cfg tgt - cur| := by
  intro n
  induction n with
  | zero =>
    intro cur acc hcl hs hw hne hcredit
    obtain ⟨⟨ha1, ha2, ha3, ha4⟩, hcase⟩ := apply_ramp_step_cases cfg cur tgt acc hne hs hw
    simp only [apply_ramp_iter]
    rcases hcase with ⟨hlt, _, _⟩ | ⟨_, hsmall, _⟩
    · rw [hcl] at hlt
      exact hlt
    · exfalso
      push_cast at hcredit
      linarith
  | succ k ih =>
    intro cur acc hcl hs hw hne hcredit
    obtain ⟨⟨ha1, ha2, ha3, ha4⟩, hcase⟩ := apply_ramp_step_cases cfg cur tgt acc hne hs hw
    simp only [apply_ramp_iter]
    rcases hcase with ⟨hlt, hlo, hhi⟩ | ⟨hp, hsmall, hstore⟩
    · have hbc1 := clamp_pwm_ge cfg cur
      have hbc2 := clamp_pwm_le cfg cur
      have hbt1 := clamp_pwm_ge cfg tgt
      have hbt2 := clamp_pwm_le cfg tgt
      have hpcl : clamp_pwm cfg (apply_ramp cur tgt cfg acc).1 =
          (apply_ramp cur tgt cfg acc).1 :=
        clamp_pwm_of_bounds cfg _ (by omega) (by omega)
      have h := apply_ramp_iter_invariant cfg tgt (k + 1)
        (apply_ramp cur tgt cfg acc).1 (apply_ramp cur tgt cfg acc).2 hpcl ha1 ha3
      have h2 := h.2.2.2
      rw [hcl] at hlt
      calc |clamp_pwm cfg tgt -
              (apply_ramp_iter cfg tgt (k + 1) (apply_ramp cur tgt cfg acc)).1| ≤
            |clamp_pwm cfg tgt - (apply_ramp cur tgt cfg acc).1| := h2
        _ < |clamp_pwm cfg tgt - cur| := hlt
    · have hp' : (apply_ramp cur tgt cfg acc).1 = cur := by rw [hp, hcl]
      have hpair : apply_ramp cur tgt cfg acc = (cur, (apply_ramp cur tgt cfg acc).2) :=
        Prod.ext_iff.mpr ⟨hp', rfl⟩
      rw [hpair]
      apply ih cur (apply_ramp cur tgt cfg acc).2 hcl ha1 ha3 hne
      rw [hstore]
      push_cast at hcredit ⊢
      linarith

/-- C5 (amended): from any in-bounds PWM and nonnegative banked credit,
`apply_ramp` toward a fixed target (a) is a no-op that clears the credit
once the (clamped) target is reached, (b) on every call moves the PWM
neither away from nor past the target, and (c) moves it strictly closer
within `n + 1` consecutive calls once the banked directional credit plus
`n + 1` per-tick credits reaches one full PWM step (so a single call
whenever `per_tick ≥ 1`). -/
theorem apply_ramp_ramp_toward_target (cfg : BoardConfig) (cur tgt : Int)
    (acc : RampAccumulator) (hcl : clamp_pwm cfg cur = cur)
    (hs : 0 ≤ acc.stronger_credit) (hw : 0 ≤ acc.weaker_credit) :
    (clamp_pwm cfg tgt = cur → apply_ramp cur tgt cfg acc = (cur, ⟨0, 0⟩)) ∧
      (min cur (clamp_pwm cfg tgt) ≤ (apply_ramp cur tgt cfg acc).1 ∧
        (apply_ramp cur tgt cfg acc).1 ≤ max cur (clamp_pwm cfg tgt) ∧
        |clamp_pwm cfg tgt - (apply_ramp cur tgt cfg acc).1| ≤
          |clamp_pwm cfg tgt - cur|) ∧
      (∀ n : Nat,
        clamp_pwm cfg tgt ≠ cur →
        1 ≤ ramp_dir_credit acc
              (is_stronger_cooling_pwm (clamp_pwm cfg tgt) cur cfg) +
            (n + 1 : Nat) *
              ramp_per_tick cfg
                (is_stronger_cooling_pwm (clamp_pwm cfg tgt) cur cfg) →
        |clamp_pwm cfg tgt - (apply_ramp_iter cfg tgt (n + 1) (cur, acc)).1| <
          |clamp_pwm cfg tgt - cur|) := by
  refine ⟨?_, ?_, ?_⟩
  · intro htgt
    have := apply_ramp_at_target cfg cur tgt acc (by rw [htgt, hcl])
    rw [hcl] at this
    exact this
  · by_cases hne : clamp_pwm cfg tgt = clamp_pwm cfg cur
    · rw [apply_ramp_at_target cfg cur tgt acc hne, hcl]
      dsimp only
      rw [hcl] at hne
      rw [hne]
      exact ⟨by omega, by omega, le_refl _⟩
    · obtain ⟨_, hcase⟩ := apply_ramp_step_cases cfg cur tgt acc hne hs hw
      rcases hcase with ⟨hlt, hlo, hhi⟩ | ⟨hp, _, _⟩
      · rw [hcl] at hlo hhi hlt
        exact ⟨hlo, hhi, le_of_lt hlt⟩
      · rw [hp, hcl]
        exact ⟨by omega, by omega, le_refl _⟩
  · intro n hne hcredit
    have hne' : clamp_pwm cfg tgt ≠ clamp_pwm cfg cur := by rw [hcl]; exact hne
    have := apply_ramp_iter_strict cfg tgt n cur acc hcl hs hw hne'
    rw [hcl] at this
    exact this hcredit

theorem apply_ramp_ramp_toward_target_witness :
    clamp_pwm ⟨1, [], [], [], [], 0, 255, 5, 10, 2000, 64, []⟩ 0 = 0 ∧
      0 ≤ (⟨0, 0⟩ : RampAccumulator).stronger_credit ∧
      ((clamp_pwm ⟨1, [], [], [], [], 0, 255, 5, 10, 2000, 64, []⟩ 200 = 0 →
          apply_ramp 0 200 ⟨1, [], [], [], [], 0, 255, 5, 10, 2000, 64, []⟩ ⟨0, 0⟩ =
            (0, ⟨0, 0⟩)) ∧
        (min 0 (clamp_pwm ⟨1, [], [], [], [], 0, 255, 5, 10, 2000, 64, []⟩ 200) ≤
            (apply_ramp 0 200 ⟨1, [], [], [], [], 0, 255, 5, 10, 2000, 64, []⟩ ⟨0, 0⟩).1 ∧
          (apply_ramp 0 200 ⟨1, [], [], [], [], 0, 255, 5, 10, 2000, 64, []⟩ ⟨0, 0⟩).1 ≤
            max 0 (clamp_pwm ⟨1, [], [], [], [], 0, 255, 5, 10, 2000, 64, []⟩ 200) ∧
          |clamp_pwm ⟨1, [], [], [], [], 0, 255, 5, 10, 2000, 64, []⟩ 200 -
              (apply_ramp 0 200 ⟨1, [], [], [], [], 0, 255, 5, 10, 2000, 64, []⟩ ⟨0, 0⟩).1| ≤
            |clamp_pwm ⟨1, [], [], [], [], 0, 255, 5, 10, 2000, 64, []⟩ 200 - 0|) ∧
        (∀ n : Nat,
          clamp_pwm ⟨1, [], [], [], [], 0, 255, 5, 10, 2000, 64, []⟩ 200 ≠ 0 →
          1 ≤ ramp_dir_credit ⟨0, 0⟩
                (is_stronger_cooling_pwm
                  (clamp_pwm ⟨1, [], [], [], [], 0, 255, 5, 10, 2000, 64, []⟩ 200) 0
                  ⟨1, [], [], [], [], 0, 255, 5, 10, 2000, 64, []⟩) +
              (n + 1 : Nat) *
                ramp_per_tick ⟨1, [], [], [], [], 0, 255, 5, 10, 2000, 64, []⟩
                  (is_stronger_cooling_pwm
                    (clamp_pwm ⟨1, [], [], [], [], 0, 255, 5, 10, 2000, 64, []⟩ 200) 0
                    ⟨1, [], [], [], [], 0, 255, 5, 10, 2000, 64, []⟩) →
          |clamp_pwm ⟨1, [], [], [], [], 0, 255, 5, 10, 2000, 64, []⟩ 200 -
              (apply_ramp_iter ⟨1, [], [], [], [], 0, 255, 5, 10, 2000, 64, []⟩ 200 (n + 1)
                (0, ⟨0, 0⟩)).1| <
            |clamp_pwm ⟨1, [], [], [], [], 0, 255, 5, 10, 2000, 64, []⟩ 200 - 0|)) :=
  ⟨by decide, by decide,
    apply_ramp_ramp_toward_target ⟨1, [], [], [], [], 0, 255, 5, 10, 2000, 64, []⟩ 0 200
      ⟨0, 0⟩ (by decide) (by decide) (by decide)⟩

/-- C5 counterexample to the claim as stated: with `PWM 0..255`,
`RAMP_UP = 600 s` and `INTERVAL = 1 s` the per-tick credit is `255/600 < 1`,
so the first `apply_ramp` call toward target 10 from PWM 0 returns 0 —
not strictly closer to the target. -/
theorem apply_ramp_not_strictly_closer_counterexample :
    clamp_pwm ⟨1, [], [], [], [], 0, 255, 600, 600, 2000, 64, []⟩ 10 ≠
        clamp_pwm ⟨1, [], [], [], [], 0, 255, 600, 600, 2000, 64, []⟩ 0 ∧
      (apply_ramp 0 10 ⟨1, [], [], [], [], 0, 255, 600, 600, 2000, 64, []⟩ ⟨0, 0⟩).1 = 0 := by
  constructor
  · decide
  · unfold apply_ramp
    norm_num [clamp_pwm, ramp_span, ramp_per_tick, ramp_dir_credit, is_stronger_cooling_pwm,
      cooling_level]

/-! ### Facts about cooling levels and arbitration -/

theorem cooling_level_nonneg (cfg : BoardConfig) (x : Int) :
    0 ≤ cooling_level cfg x := by
  unfold cooling_level clamp_pwm
  dsimp only
  split <;> omega

theorem cooling_level_le_top (cfg : BoardConfig) (x : Int) :
    cooling_level cfg x ≤ cooling_level cfg (max_cooling_pwm cfg) := by
  unfold cooling_level clamp_pwm max_cooling_pwm
  dsimp only
  split <;> omega

theorem cooling_level_min_bot (cfg : BoardConfig) :
    cooling_level cfg (min_cooling_pwm cfg) = 0 := by
  unfold cooling_level clamp_pwm min_cooling_pwm
  dsimp only
  split <;> omega

theorem cooling_level_clamp (cfg : BoardConfig) (x : Int) :
    cooling_level cfg (clamp_pwm cfg x) = cooling_level cfg x := by
  unfold cooling_level
  rw [clamp_pwm_idem]

theorem cooling_level_inj (cfg : BoardConfig) {x y : Int}
    (hx1 : min cfg.pwm_min cfg.pwm_max ≤ x) (hx2 : x ≤ max cfg.pwm_min cfg.pwm_max)
    (hy1 : min cfg.pwm_min cfg.pwm_max ≤ y) (hy2 : y ≤ max cfg.pwm_min cfg.pwm_max)
    (h : cooling_level cfg x = cooling_level cfg y) : x = y := by
  rw [cooling_level, cooling_level, clamp_pwm_of_bounds cfg x hx1 hx2,
    clamp_pwm_of_bounds cfg y hy1 hy2] at h
  split at h <;> omega

theorem is_stronger_cooling_pwm_iff (cfg : BoardConfig) (candidate baseline : Int) :
    is_stronger_cooling_pwm candidate baseline cfg = true ↔
      (cfg.pwm_max - cfg.pwm_min ≠ 0 ∧
        cooling_level cfg baseline < cooling_level cfg candidate) := by
  unfold is_stronger_cooling_pwm
  dsimp only
  split
  · simp_all
  · simp_all

theorem cooling_level_zero_span (cfg : BoardConfig) (x : Int)
    (h : cfg.pwm_max - cfg.pwm_min = 0) : cooling_level cfg x = 0 := by
  unfold cooling_level clamp_pwm
  dsimp only
  split <;> omega

theorem stronger_cooling_pwm_cases (cfg : BoardConfig) (l r : Int) :
    (stronger_cooling_pwm l r cfg = l ∨ stronger_cooling_pwm l r cfg = r) ∧
      cooling_level cfg (stronger_cooling_pwm l r cfg) =
        max (cooling_level cfg l) (cooling_level cfg r) := by
  constructor
  · unfold stronger_cooling_pwm
    split
    · exact Or.inr rfl
    · exact Or.inl rfl
  · unfold stronger_cooling_pwm
    split
    · next hb =>
      rw [is_stronger_cooling_pwm_iff] at hb
      omega
    · next hb =>
      rw [is_stronger_cooling_pwm_iff] at hb
      push_neg at hb
      by_cases hspan : cfg.pwm_max - cfg.pwm_min = 0
      · rw [cooling_level_zero_span cfg l hspan, cooling_level_zero_span cfg r hspan]
        omega
      · have := hb hspan
        omega

theorem stronger_cooling_pwm_absorb_left (cfg : BoardConfig) (l r : Int)
    (h : cooling_level cfg r ≤ cooling_level cfg l) :
    stronger_cooling_pwm l r cfg = l := by
  unfold stronger_cooling_pwm
  split
  · next hb =>
    rw [is_stronger_cooling_pwm_iff] at hb
    omega
  · rfl

/-- A critical demand is always the max-cooling PWM. -/
theorem demand_from_source_critical_is_max (cfg : BoardConfig)
    (src : BoardSourceConfig) (temp_mC : Int) (active : Bool)
    (h : (demand_from_source cfg src temp_mC active).critical = true) :
    (demand_from_source cfg src temp_mC active).pwm = max_cooling_pwm cfg := by
  unfold demand_from_source at h ⊢
  dsimp only at h ⊢
  split at h
  · next hcond =>
    rw [if_pos hcond]
  · exfalso
    split at h <;> simp_all

/-- Case analysis of one source-loop iteration: a non-contributing slot
leaves the decision untouched apart from possibly raising `any_timeout`;
a contributing slot marks `any_valid`, folds its demand into the target,
ors in its critical flag, and stores the updated `active` flag. -/
theorem decision_step_cases (cfg : BoardConfig)
    (by_id : List (List Char × BoardSourceConfig)) (now : Int)
    (st : DecisionState) (ort : Option SourceRuntimeView) :
    (source_contributes by_id now ort = false ∧
      (decision_step cfg by_id now st ort).decision.any_valid = st.decision.any_valid ∧
      (decision_step cfg by_id now st ort).decision.target_pwm = st.decision.target_pwm ∧
      (decision_step cfg by_id now st ort).decision.critical = st.decision.critical ∧
      (decision_step cfg by_id now st ort).active_state = st.active_state ∧
      (decision_step cfg by_id now st ort).decision.any_timeout =
        (st.decision.any_timeout || source_times_out by_id now ort)) ∨
    (∃ rt src g,
      ort = some rt ∧ assoc_find by_id rt.id = some src ∧
      rt.snap.last_good_sample = some g ∧
      source_snapshot_timeout src now rt.snap = false ∧
      source_contributes by_id now ort = true ∧
      source_times_out by_id now ort = false ∧
      (decision_step cfg by_id now st ort).decision.any_valid = true ∧
      (decision_step cfg by_id now st ort).decision.target_pwm =
        stronger_cooling_pwm st.decision.target_pwm
          (demand_from_source cfg src g.temp_mC (active_lookup st.active_state rt.id)).pwm
          cfg ∧
      (decision_step cfg by_id now st ort).decision.critical =
        (st.decision.critical ||
          (demand_from_source cfg src g.temp_mC (active_lookup st.active_state rt.id)).critical) ∧
      (decision_step cfg by_id now st ort).active_state =
        active_update st.active_state rt.id
          (demand_from_source cfg src g.temp_mC (active_lookup st.active_state rt.id)).active ∧
      (decision_step cfg by_id now st ort).decision.any_timeout =
        st.decision.any_timeout) := by
  match ort with
  | none =>
    left
    simp [decision_step, source_contributes, source_times_out]
  | some rt =>
    match hfind : assoc_find by_id rt.id with
    | none =>
      left
      simp [decision_step, source_contributes, source_times_out, hfind]
    | some src =>
      by_cases ht : source_snapshot_timeout src now rt.snap
      · left
        simp [decision_step, source_contributes, source_times_out, hfind, ht]
      · match hg : rt.snap.last_good_sample with
        | none =>
          left
          have hto : source_snapshot_timeout src now rt.snap = false := by
            simp [ht]
          simp [decision_step, source_contributes, source_times_out, hfind, hto, hg]
        | some g =>
          right
          refine ⟨rt, src, g, rfl, hfind, hg, by simp [ht], ?_, ?_, ?_, ?_, ?_, ?_, ?_⟩
          · simp [source_contributes, hfind, ht, hg]
          · simp [source_times_out, hfind, ht]
          · simp [decision_step, hfind, ht, hg]
          · simp [decision_step, hfind, ht, hg]
          · simp [decision_step, hfind, ht, hg]
          · simp [decision_step, hfind, ht, hg]
          · simp [decision_step, hfind, ht, hg]

theorem demands_of_cons_not_contrib (cfg : BoardConfig)
    (by_id : List (List Char × BoardSourceConfig)) (now : Int)
    (ort : Option SourceRuntimeView) (rest : List (Option SourceRuntimeView))
    (amap : List (List Char × Bool))
    (h : source_contributes by_id now ort = false) :
    demands_of cfg by_id now (ort :: rest) amap = demands_of cfg by_id now rest amap := by
  conv_lhs => rw [demands_of.eq_def]
  match ort with
  | none => rfl
  | some rt =>
    unfold source_contributes at h
    dsimp only at h
    dsimp only
    match hfind : assoc_find by_id rt.id with
    | none => simp [hfind]
    | some src =>
      rw [hfind] at h
      dsimp only at h
      by_cases ht : source_snapshot_timeout src now rt.snap
      · simp [hfind, ht]
      · match hg : rt.snap.last_good_sample with
        | none => simp [hfind, ht, hg]
        | some g => simp [ht, hg] at h

theorem demands_of_cons_contrib (cfg : BoardConfig)
    (by_id : List (List Char × BoardSourceConfig)) (now : Int)
    (rt : SourceRuntimeView) (src : BoardSourceConfig) (g : TempSample)
    (rest : List (Option SourceRuntimeView)) (amap : List (List Char × Bool))
    (hfind : assoc_find by_id rt.id = some src)
    (ht : source_snapshot_timeout src now rt.snap = false)
    (hg : rt.snap.last_good_sample = some g) :
    demands_of cfg by_id now (some rt :: rest) amap =
      (demand_from_source cfg src g.temp_mC (active_lookup amap rt.id)).pwm ::
        demands_of cfg by_id now rest
          (active_update amap rt.id
            (demand_from_source cfg src g.temp_mC (active_lookup amap rt.id)).active) := by
  conv_lhs => rw [demands_of.eq_def]
  simp [hfind, ht, hg]

/-- Characterization of the whole source loop: `any_valid` and
`any_timeout` track whether some slot contributes/times out, the target is
the stronger-cooling fold of the contributed demands, and a critical
decision implies a max-cooling demand was contributed. -/
theorem decision_fold_char (cfg : BoardConfig)
    (by_id : List (List Char × BoardSourceConfig)) (now : Int) :
    ∀ (runtimes : List (Option SourceRuntimeView)) (st : DecisionState),
      (runtimes.foldl (decision_step cfg by_id now) st).decision.any_valid =
          (st.decision.any_valid ||
            runtimes.any (fun o => source_contributes by_id now o)) ∧
        (runtimes.foldl (decision_step cfg by_id now) st).decision.any_timeout =
          (st.decision.any_timeout ||
            runtimes.any (fun o => source_times_out by_id now o)) ∧
        (runtimes.foldl (decision_step cfg by_id now) st).decision.target_pwm =
          (demands_of cfg by_id now runtimes st.active_state).foldl
            (fun t dm => stronger_cooling_pwm t dm cfg) st.decision.target_pwm ∧
        ((runtimes.foldl (decision_step cfg by_id now) st).decision.critical = true →
          st.decision.critical = true ∨
            max_cooling_pwm cfg ∈ demands_of cfg by_id now runtimes st.active_state) := by
  intro runtimes
  induction runtimes with
  | nil =>
    intro st
    refine ⟨by simp, by simp, by simp [demands_of], fun h => Or.inl h⟩
  | cons head rest ih =>
    intro st
    rcases decision_step_cases cfg by_id now st head with
      ⟨hc, hv, htg, hcr, has, hto⟩ |
      ⟨rt, src, g, hrt, hfind, hg, htimen, hc, htn, hv, htg, hcr, has, hto⟩
    · obtain ⟨ih1, ih2, ih3, ih4⟩ := ih (decision_step cfg by_id now st head)
      rw [List.foldl_cons]
      refine ⟨?_, ?_, ?_, ?_⟩
      · rw [ih1, hv, List.any_cons, hc]
        simp
      · rw [ih2, hto, List.any_cons]
        simp [Bool.or_assoc]
      · rw [ih3, htg, has, demands_of_cons_not_contrib cfg by_id now head rest _ hc]
      · intro h
        rw [demands_of_cons_not_contrib cfg by_id now head rest _ hc]
        rw [has] at ih4
        rcases ih4 h with h1 | h2
        · rw [hcr] at h1
          exact Or.inl h1
        · exact Or.inr h2
    · subst hrt
      obtain ⟨ih1, ih2, ih3, ih4⟩ := ih (decision_step cfg by_id now st (some rt))
      rw [List.foldl_cons]
      have hdem := demands_of_cons_contrib cfg by_id now rt src g rest st.active_state
        hfind htimen hg
      refine ⟨?_, ?_, ?_, ?_⟩
      · rw [ih1, hv, List.any_cons, hc]
        simp
      · rw [ih2, hto, List.any_cons, htn]
        simp
      · rw [ih3, htg, has, hdem, List.foldl_cons]
      · intro h
        rw [hdem]
        rw [has] at ih4
        rcases ih4 h with h1 | h2
        · rw [hcr] at h1
          rcases Bool.or_eq_true_iff.mp h1 with h3 | h4
          · exact Or.inl h3
          · refine Or.inr ?_
            rw [← demand_from_source_critical_is_max cfg src g.temp_mC
              (active_lookup st.active_state rt.id) h4]
            exact List.mem_cons_self _ _
        · exact Or.inr (List.mem_cons_of_mem _ h2)

theorem demands_of_bounds (cfg : BoardConfig)
    (by_id : List (List Char × BoardSourceConfig)) (now : Int) :
    ∀ (runtimes : List (Option SourceRuntimeView)) (amap : List (List Char × Bool)),
      ∀ x ∈ demands_of cfg by_id now runtimes amap,
        min cfg.pwm_min cfg.pwm_max ≤ x ∧ x ≤ max cfg.pwm_min cfg.pwm_max := by
  intro runtimes
  induction runtimes with
  | nil =>
    intro amap x hx
    simp [demands_of] at hx
  | cons head rest ih =>
    intro amap x hx
    rw [demands_of.eq_def] at hx
    match head with
    | none => exact ih amap x hx
    | some rt =>
      dsimp only at hx
      match hfind : assoc_find by_id rt.id with
      | none =>
        rw [hfind] at hx
        exact ih amap x hx
      | some src =>
        rw [hfind] at hx
        dsimp only at hx
        by_cases ht : source_snapshot_timeout src now rt.snap
        · rw [if_pos ht] at hx
          exact ih amap x hx
        · rw [if_neg ht] at hx
          match hg : rt.snap.last_good_sample with
          | none =>
            rw [hg] at hx
            exact ih amap x hx
          | some g =>
            rw [hg] at hx
            dsimp only at hx
            rcases List.mem_cons.mp hx with h1 | h2
            · rw [h1]
              exact demand_from_source_bounds cfg src g.temp_mC _
            · exact ih _ x h2

/-- The stronger-cooling fold of a demand list: the result is the seed or
a member, it dominates the seed and every member in cooling level. -/
theorem stronger_fold_char (cfg : BoardConfig) :
    ∀ (ds : List Int) (t0 : Int),
      (ds.foldl (fun t dm => stronger_cooling_pwm t dm cfg) t0 = t0 ∨
        ds.foldl (fun t dm => stronger_cooling_pwm t dm cfg) t0 ∈ ds) ∧
      cooling_level cfg t0 ≤
        cooling_level cfg (ds.foldl (fun t dm => stronger_cooling_pwm t dm cfg) t0) ∧
      ∀ d ∈ ds, cooling_level cfg d ≤
        cooling_level cfg (ds.foldl (fun t dm => stronger_cooling_pwm t dm cfg) t0) := by
  intro ds
  induction ds with
  | nil =>
    intro t0
    exact ⟨Or.inl rfl, le_refl _, by simp⟩
  | cons d rest ih =>
    intro t0
    rw [List.foldl_cons]
    obtain ⟨hmem, hseed, hall⟩ := ih (stronger_cooling_pwm t0 d cfg)
    obtain ⟨hcase, hlevel⟩ := stronger_cooling_pwm_cases cfg t0 d
    refine ⟨?_, ?_, ?_⟩
    · rcases hmem with h1 | h1
      · rcases hcase with h2 | h2
        · exact Or.inl (by rw [h1, h2])
        · exact Or.inr (by rw [h1, h2]; exact List.mem_cons_self _ _)
      · exact Or.inr (List.mem_cons_of_mem _ h1)
    · calc cooling_level cfg t0 ≤ cooling_level cfg (stronger_cooling_pwm t0 d cfg) := by
            rw [hlevel]; exact le_max_left _ _
        _ ≤ _ := hseed
    · intro x hx
      rcases List.mem_cons.mp hx with h1 | h1
      · subst h1
        calc cooling_level cfg x ≤ cooling_level cfg (stronger_cooling_pwm t0 x cfg) := by
              rw [hlevel]; exact le_max_right _ _
          _ ≤ _ := hseed
      · exact hall x h1

theorem source_times_out_not_contributing (by_id : List (List Char × BoardSourceConfig))
    (now : Int) (ort : Option SourceRuntimeView)
    (h : source_times_out by_id now ort = true) :
    source_contributes by_id now ort = false := by
  match ort with
  | none => simp [source_times_out] at h
  | some rt =>
    unfold source_times_out at h
    unfold source_contributes
    dsimp only at h ⊢
    match hfind : assoc_find by_id rt.id with
    | none => rfl
    | some src =>
      rw [hfind] at h
      dsimp only at h ⊢
      rw [h]
      rfl

theorem demands_of_ne_nil_any (cfg : BoardConfig)
    (by_id : List (List Char × BoardSourceConfig)) (now : Int) :
    ∀ (l : List (Option SourceRuntimeView)) (amap : List (List Char × Bool)),
      demands_of cfg by_id now l amap ≠ [] →
      l.any (fun o => source_contributes by_id now o) = true := by
  intro l
  induction l with
  | nil =>
    intro amap h
    simp [demands_of] at h
  | cons head rest ih =>
    intro amap h
    by_cases hc : source_contributes by_id now head = true
    · simp [List.any_cons, hc]
    · rw [List.any_cons]
      have hc' : source_contributes by_id now head = false := by
        simp at hc
        exact hc
      rw [demands_of_cons_not_contrib cfg by_id now head rest amap hc'] at h
      rw [ih amap h, hc']
      simp

/-- C1: when no runtime slot contributes a valid reading this tick, the
decision reports `any_valid = false` and the target is forced to the
max-cooling PWM (fail to safety, not to idle). -/
theorem no_valid_reading_forces_max_cooling (cfg : BoardConfig)
    (by_id : List (List Char × BoardSourceConfig))
    (runtimes : List (Option SourceRuntimeView))
    (active0 : List (List Char × Bool)) (now : Int)
    (h : ∀ ort ∈ runtimes, source_contributes by_id now ort = false) :
    (compute_target_decision cfg by_id runtimes active0 now).decision.any_valid = false ∧
      (compute_target_decision cfg by_id runtimes active0 now).decision.target_pwm =
        max_cooling_pwm cfg := by
  obtain ⟨h1, h2, h3, h4⟩ := decision_fold_char cfg by_id now runtimes
    ⟨{ target_pwm := min_cooling_pwm cfg }, active0, []⟩
  have hanyv : (List.foldl (decision_step cfg by_id now)
      ⟨{ target_pwm := min_cooling_pwm cfg }, active0, []⟩ runtimes).decision.any_valid =
        false := by
    rw [h1]
    simp only [Bool.false_or]
    rw [List.any_eq_false]
    intro x hx
    simp [h x hx]
  have hclamp : clamp_pwm cfg (max_cooling_pwm cfg) = max_cooling_pwm cfg :=
    clamp_pwm_of_bounds cfg _ (pwm_max_mem_span cfg).1 (pwm_max_mem_span cfg).2
  have habsorb : ∀ x : Int,
      stronger_cooling_pwm (max_cooling_pwm cfg) x cfg = max_cooling_pwm cfg := by
    intro x
    exact stronger_cooling_pwm_absorb_left cfg _ x (cooling_level_le_top cfg x)
  constructor
  · unfold compute_target_decision
    dsimp only
    exact hanyv
  · unfold compute_target_decision
    dsimp only
    rw [hanyv]
    simp only [Bool.not_false, if_pos]
    split
    · rw [habsorb, hclamp]
    · exact hclamp

theorem no_valid_reading_forces_max_cooling_witness :
    (∀ ort ∈ ([some ⟨['a'], { has_polled := true }⟩] : List (Option SourceRuntimeView)),
        source_contributes [(['a'], { id := ['a'], ttl_sec := 6 })] (100 : Int) ort =
          false) ∧
      (compute_target_decision ⟨1, [], [], [], [], 0, 255, 5, 10, 2000, 64, []⟩
          [(['a'], { id := ['a'], ttl_sec := 6 })]
          [some ⟨['a'], { has_polled := true }⟩] [] 100).decision.any_valid = false ∧
      (compute_target_decision ⟨1, [], [], [], [], 0, 255, 5, 10, 2000, 64, []⟩
          [(['a'], { id := ['a'], ttl_sec := 6 })]
          [some ⟨['a'], { has_polled := true }⟩] [] 100).decision.target_pwm =
        max_cooling_pwm ⟨1, [], [], [], [], 0, 255, 5, 10, 2000, 64, []⟩ :=
  ⟨by decide,
    no_valid_reading_forces_max_cooling ⟨1, [], [], [], [], 0, 255, 5, 10, 2000, 64, []⟩
      [(['a'], { id := ['a'], ttl_sec := 6 })]
      [some ⟨['a'], { has_polled := true }⟩] [] 100 (by decide)⟩

/-- C10: every demand the policy produces lies within the inclusive
actuator span, and so does every final target the decision computes, for
every configuration and source state. -/
theorem pwm_policy_outputs_within_bounds :
    (∀ (cfg : BoardConfig) (src : BoardSourceConfig) (temp_mC : Int) (active : Bool),
      min cfg.pwm_min cfg.pwm_max ≤ (demand_from_source cfg src temp_mC active).pwm ∧
        (demand_from_source cfg src temp_mC active).pwm ≤ max cfg.pwm_min cfg.pwm_max) ∧
      (∀ (cfg : BoardConfig) (by_id : List (List Char × BoardSourceConfig))
          (runtimes : List (Option SourceRuntimeView))
          (active0 : List (List Char × Bool)) (now : Int),
        min cfg.pwm_min cfg.pwm_max ≤
            (compute_target_decision cfg by_id runtimes active0 now).decision.target_pwm ∧
          (compute_target_decision cfg by_id runtimes active0 now).decision.target_pwm ≤
            max cfg.pwm_min cfg.pwm_max) := by
  constructor
  · exact demand_from_source_bounds
  · intro cfg by_id runtimes active0 now
    unfold compute_target_decision
    dsimp only
    exact ⟨clamp_pwm_ge cfg _, clamp_pwm_le cfg _⟩

/-- C3 (amended): with one timed-out source and every other slot
contributing a valid reading, the decision raises `any_timeout`, the
target is at least the clamped fail-safe PWM in the stronger-cooling
order, and it still equals the strongest contributed demand whenever that
demand's cooling level exceeds the clamped fail-safe's. -/
theorem single_timeout_failsafe_floor (cfg : BoardConfig)
    (by_id : List (List Char × BoardSourceConfig)) (now : Int)
    (active0 : List (List Char × Bool))
    (A B : List (Option SourceRuntimeView)) (t : Option SourceRuntimeView)
    (ht : source_times_out by_id now t = true)
    (hv : ∀ ort ∈ A ++ B, source_contributes by_id now ort = true) :
    (compute_target_decision cfg by_id (A ++ t :: B) active0 now).decision.any_timeout =
        true ∧
      cooling_level cfg (clamp_pwm cfg cfg.failsafe_pwm) ≤
        cooling_level cfg
          (compute_target_decision cfg by_id (A ++ t :: B) active0 now).decision.target_pwm ∧
      ∀ M ∈ demands_of cfg by_id now (A ++ t :: B) active0,
        (∀ d ∈ demands_of cfg by_id now (A ++ t :: B) active0,
          cooling_level cfg d ≤ cooling_level cfg M) →
        cooling_level cfg (clamp_pwm cfg cfg.failsafe_pwm) < cooling_level cfg M →
        (compute_target_decision cfg by_id (A ++ t :: B) active0 now).decision.target_pwm =
          M := by
  obtain ⟨h1, h2, h3, h4⟩ := decision_fold_char cfg by_id now (A ++ t :: B)
    ⟨{ target_pwm := min_cooling_pwm cfg }, active0, []⟩
  dsimp only at h1 h2 h3 h4
  have htmem : t ∈ A ++ t :: B := List.mem_append_right A (List.mem_cons_self t B)
  have hanyt : (List.foldl (decision_step cfg by_id now)
      ⟨{ target_pwm := min_cooling_pwm cfg }, active0, []⟩
      (A ++ t :: B)).decision.any_timeout = true := by
    rw [h2]
    simp only [Bool.false_or, List.any_eq_true]
    exact ⟨t, htmem, ht⟩
  refine ⟨?_, ?_, ?_⟩
  · unfold compute_target_decision
    dsimp only
    exact hanyt
  · unfold compute_target_decision
    dsimp only
    rw [hanyt, if_pos rfl]
    conv_rhs => rw [cooling_level_clamp]
    rw [(stronger_cooling_pwm_cases cfg _ (clamp_pwm cfg cfg.failsafe_pwm)).2]
    exact le_max_right _ _
  · intro M hM hdom hflt
    have hne : demands_of cfg by_id now (A ++ t :: B) active0 ≠ [] :=
      List.ne_nil_of_mem hM
    have hanyc := demands_of_ne_nil_any cfg by_id now (A ++ t :: B) active0 hne
    have hanyv : (List.foldl (decision_step cfg by_id now)
        ⟨{ target_pwm := min_cooling_pwm cfg }, active0, []⟩
        (A ++ t :: B)).decision.any_valid = true := by
      rw [h1, hanyc]
      simp
    have hMb := demands_of_bounds cfg by_id now (A ++ t :: B) active0 M hM
    obtain ⟨hmem, hseed, hall⟩ :=
      stronger_fold_char cfg (demands_of cfg by_id now (A ++ t :: B) active0)
        (min_cooling_pwm cfg)
    have hT0M : (demands_of cfg by_id now (A ++ t :: B) active0).foldl
        (fun x dm => stronger_cooling_pwm x dm cfg) (min_cooling_pwm cfg) = M := by
      have hle1 : cooling_level cfg ((demands_of cfg by_id now (A ++ t :: B) active0).foldl
          (fun x dm => stronger_cooling_pwm x dm cfg) (min_cooling_pwm cfg)) ≤
            cooling_level cfg M := by
        rcases hmem with hmem | hmem
        · rw [hmem, cooling_level_min_bot]
          exact cooling_level_nonneg cfg M
        · exact hdom _ hmem
      have hle2 := hall M hM
      have hb : min cfg.pwm_min cfg.pwm_max ≤
          (demands_of cfg by_id now (A ++ t :: B) active0).foldl
            (fun x dm => stronger_cooling_pwm x dm cfg) (min_cooling_pwm cfg) ∧
          (demands_of cfg by_id now (A ++ t :: B) active0).foldl
            (fun x dm => stronger_cooling_pwm x dm cfg) (min_cooling_pwm cfg) ≤
            max cfg.pwm_min cfg.pwm_max := by
        rcases hmem with hmem | hmem
        · rw [hmem]
          exact pwm_min_mem_span cfg
        · exact demands_of_bounds cfg by_id now (A ++ t :: B) active0 _ hmem
      exact cooling_level_inj cfg hb.1 hb.2 hMb.1 hMb.2 (le_antisymm hle1 hle2)
    have hft : (List.foldl (decision_step cfg by_id now)
        ⟨{ target_pwm := min_cooling_pwm cfg }, active0, []⟩
        (A ++ t :: B)).decision.target_pwm = M := by
      rw [h3]
      exact hT0M
    unfold compute_target_decision
    dsimp only
    rw [hanyt, if_pos rfl, hanyv]
    simp only [Bool.not_true]
    rw [if_neg (by decide)]
    by_cases hcrit : (List.foldl (decision_step cfg by_id now)
        ⟨{ target_pwm := min_cooling_pwm cfg }, active0, []⟩
        (A ++ t :: B)).decision.critical = true
    · have hmaxM : max_cooling_pwm cfg = M := by
        rcases h4 hcrit with hbad | hmemmax
        · simp at hbad
        · refine cooling_level_inj cfg (pwm_max_mem_span cfg).1 (pwm_max_mem_span cfg).2
            hMb.1 hMb.2 ?_
          exact le_antisymm (hdom _ hmemmax) (cooling_level_le_top cfg M)
      rw [if_pos hcrit, hmaxM,
        stronger_cooling_pwm_absorb_left cfg M _ (le_of_lt hflt),
        clamp_pwm_of_bounds cfg M hMb.1 hMb.2]
    · rw [if_neg hcrit, hft,
        stronger_cooling_pwm_absorb_left cfg M _ (le_of_lt hflt),
        clamp_pwm_of_bounds cfg M hMb.1 hMb.2]

theorem single_timeout_failsafe_floor_witness :
    source_times_out
        [(['a'], { id := ['a'], ttl_sec := 6, t_start_mC := 40000, t_full_mC := 50000,
                   t_crit_mC := 60000 }),
         (['b'], { id := ['b'], ttl_sec := 6, t_start_mC := 40000, t_full_mC := 50000,
                   t_crit_mC := 60000 })] (100 : Int)
        (some ⟨['a'], { has_polled := true, last_good_sample := some { ok := true, temp_mC := 45000, sample_ts := 0 } }⟩) =
        true ∧
      (∀ ort ∈ ([] ++ [some ⟨['b'], { has_polled := true, last_good_sample := some { ok := true, temp_mC := 30000, sample_ts := 99 } }⟩] :
            List (Option SourceRuntimeView)),
        source_contributes
          [(['a'], { id := ['a'], ttl_sec := 6, t_start_mC := 40000, t_full_mC := 50000,
                     t_crit_mC := 60000 }),
           (['b'], { id := ['b'], ttl_sec := 6, t_start_mC := 40000, t_full_mC := 50000,
                     t_crit_mC := 60000 })] 100 ort = true) ∧
      ((compute_target_decision ⟨1, [], [], [], [], 0, 255, 5, 10, 2000, 64, []⟩
          [(['a'], { id := ['a'], ttl_sec := 6, t_start_mC := 40000, t_full_mC := 50000,
                     t_crit_mC := 60000 }),
           (['b'], { id := ['b'], ttl_sec := 6, t_start_mC := 40000, t_full_mC := 50000,
                     t_crit_mC := 60000 })]
          ([] ++ (some ⟨['a'], { has_polled := true, last_good_sample := some { ok := true, temp_mC := 45000, sample_ts := 0 } }⟩) ::
            [some ⟨['b'], { has_polled := true, last_good_sample := some { ok := true, temp_mC := 30000, sample_ts := 99 } }⟩])
          [] 100).decision.any_timeout = true ∧
        cooling_level ⟨1, [], [], [], [], 0, 255, 5, 10, 2000, 64, []⟩
            (clamp_pwm ⟨1, [], [], [], [], 0, 255, 5, 10, 2000, 64, []⟩
              (⟨1, [], [], [], [], 0, 255, 5, 10, 2000, 64, []⟩ : BoardConfig).failsafe_pwm) ≤
          cooling_level ⟨1, [], [], [], [], 0, 255, 5, 10, 2000, 64, []⟩
            (compute_target_decision ⟨1, [], [], [], [], 0, 255, 5, 10, 2000, 64, []⟩
              [(['a'], { id := ['a'], ttl_sec := 6, t_start_mC := 40000, t_full_mC := 50000,
                         t_crit_mC := 60000 }),
               (['b'], { id := ['b'], ttl_sec := 6, t_start_mC := 40000, t_full_mC := 50000,
                         t_crit_mC := 60000 })]
              ([] ++ (some ⟨['a'], { has_polled := true, last_good_sample := some { ok := true, temp_mC := 45000, sample_ts := 0 } }⟩) ::
                [some ⟨['b'], { has_polled := true, last_good_sample := some { ok := true, temp_mC := 30000, sample_ts := 99 } }⟩])
              [] 100).decision.target_pwm ∧
        ∀ M ∈ demands_of ⟨1, [], [], [], [], 0, 255, 5, 10, 2000, 64, []⟩
            [(['a'], { id := ['a'], ttl_sec := 6, t_start_mC := 40000, t_full_mC := 50000,
                       t_crit_mC := 60000 }),
             (['b'], { id := ['b'], ttl_sec := 6, t_start_mC := 40000, t_full_mC := 50000,
                       t_crit_mC := 60000 })] 100
            ([] ++ (some ⟨['a'], { has_polled := true, last_good_sample := some { ok := true, temp_mC := 45000, sample_ts := 0 } }⟩) ::
              [some ⟨['b'], { has_polled := true, last_good_sample := some { ok := true, temp_mC := 30000, sample_ts := 99 } }⟩])
            [],
          (∀ d ∈ demands_of ⟨1, [], [], [], [], 0, 255, 5, 10, 2000, 64, []⟩
              [(['a'], { id := ['a'], ttl_sec := 6, t_start_mC := 40000, t_full_mC := 50000,
                         t_crit_mC := 60000 }),
               (['b'], { id := ['b'], ttl_sec := 6, t_start_mC := 40000, t_full_mC := 50000,
                         t_crit_mC := 60000 })] 100
              ([] ++ (some ⟨['a'], { has_polled := true, last_good_sample := some { ok := true, temp_mC := 45000, sample_ts := 0 } }⟩) ::
                [some ⟨['b'], { has_polled := true, last_good_sample := some { ok := true, temp_mC := 30000, sample_ts := 99 } }⟩])
              [],
            cooling_level ⟨1, [], [], [], [], 0, 255, 5, 10, 2000, 64, []⟩ d ≤
              cooling_level ⟨1, [], [], [], [], 0, 255, 5, 10, 2000, 64, []⟩ M) →
          cooling_level ⟨1, [], [], [], [], 0, 255, 5, 10, 2000, 64, []⟩
              (clamp_pwm ⟨1, [], [], [], [], 0, 255, 5, 10, 2000, 64, []⟩
                (⟨1, [], [], [], [], 0, 255, 5, 10, 2000, 64, []⟩ : BoardConfig).failsafe_pwm) <
            cooling_level ⟨1, [], [], [], [], 0, 255, 5, 10, 2000, 64, []⟩ M →
          (compute_target_decision ⟨1, [], [], [], [], 0, 255, 5, 10, 2000, 64, []⟩
            [(['a'], { id := ['a'], ttl_sec := 6, t_start_mC := 40000, t_full_mC := 50000,
                       t_crit_mC := 60000 }),
             (['b'], { id := ['b'], ttl_sec := 6, t_start_mC := 40000, t_full_mC := 50000,
                       t_crit_mC := 60000 })]
            ([] ++ (some ⟨['a'], { has_polled := true, last_good_sample := some { ok := true, temp_mC := 45000, sample_ts := 0 } }⟩) ::
              [some ⟨['b'], { has_polled := true, last_good_sample := some { ok := true, temp_mC := 30000, sample_ts := 99 } }⟩])
            [] 100).decision.target_pwm = M) :=
  ⟨by decide, by decide,
    single_timeout_failsafe_floor ⟨1, [], [], [], [], 0, 255, 5, 10, 2000, 64, []⟩
      [(['a'], { id := ['a'], ttl_sec := 6, t_start_mC := 40000, t_full_mC := 50000,
                 t_crit_mC := 60000 }),
       (['b'], { id := ['b'], ttl_sec := 6, t_start_mC := 40000, t_full_mC := 50000,
                 t_crit_mC := 60000 })] 100 [] []
      [some ⟨['b'], { has_polled := true, last_good_sample := some { ok := true, temp_mC := 30000, sample_ts := 99 } }⟩]
      (some ⟨['a'], { has_polled := true, last_good_sample := some { ok := true, temp_mC := 45000, sample_ts := 0 } }⟩)
      (by decide) (by decide)⟩

/-- C3 counterexample to the claim as stated: with `PWM_MIN = 0`,
`PWM_MAX = 100` and `FAILSAFE_PWM = 200` (all accepted by validation), one
timed-out source plus one valid cool source yield `target_pwm = 100`,
which is *below* `failsafe_pwm = 200` — the fail-safe floor is the
*clamped* fail-safe, not the raw configured number. -/
theorem target_at_least_failsafe_counterexample :
    source_times_out
        [(['a'], { id := ['a'], ttl_sec := 6, t_start_mC := 40000, t_full_mC := 50000,
                   t_crit_mC := 60000 }),
         (['b'], { id := ['b'], ttl_sec := 6, t_start_mC := 40000, t_full_mC := 50000,
                   t_crit_mC := 60000 })] (100 : Int)
        (some ⟨['a'], { has_polled := true, last_good_sample := some { ok := true, temp_mC := 45000, sample_ts := 0 } }⟩) =
        true ∧
      source_contributes
        [(['a'], { id := ['a'], ttl_sec := 6, t_start_mC := 40000, t_full_mC := 50000,
                   t_crit_mC := 60000 }),
         (['b'], { id := ['b'], ttl_sec := 6, t_start_mC := 40000, t_full_mC := 50000,
                   t_crit_mC := 60000 })] 100
        (some ⟨['b'], { has_polled := true, last_good_sample := some { ok := true, temp_mC := 30000, sample_ts := 99 } }⟩) =
        true ∧
      (compute_target_decision ⟨1, [], [], [], [], 0, 100, 5, 10, 2000, 200, []⟩
          [(['a'], { id := ['a'], ttl_sec := 6, t_start_mC := 40000, t_full_mC := 50000,
                     t_crit_mC := 60000 }),
           (['b'], { id := ['b'], ttl_sec := 6, t_start_mC := 40000, t_full_mC := 50000,
                     t_crit_mC := 60000 })]
          [some ⟨['a'], { has_polled := true, last_good_sample := some { ok := true, temp_mC := 45000, sample_ts := 0 } }⟩,
           some ⟨['b'], { has_polled := true, last_good_sample := some { ok := true, temp_mC := 30000, sample_ts := 99 } }⟩]
          [] 100).decision.target_pwm = 100 ∧
      (compute_target_decision ⟨1, [], [], [], [], 0, 100, 5, 10, 2000, 200, []⟩
          [(['a'], { id := ['a'], ttl_sec := 6, t_start_mC := 40000, t_full_mC := 50000,
                     t_crit_mC := 60000 }),
           (['b'], { id := ['b'], ttl_sec := 6, t_start_mC := 40000, t_full_mC := 50000,
                     t_crit_mC := 60000 })]
          [some ⟨['a'], { has_polled := true, last_good_sample := some { ok := true, temp_mC := 45000, sample_ts := 0 } }⟩,
           some ⟨['b'], { has_polled := true, last_good_sample := some { ok := true, temp_mC := 30000, sample_ts := 99 } }⟩]
          [] 100).decision.target_pwm <
        (⟨1, [], [], [], [], 0, 100, 5, 10, 2000, 200, []⟩ : BoardConfig).failsafe_pwm := by
  refine ⟨by decide, by decide, by decide, by decide⟩

/-- C8: both variants' `store_sample` record the sample as the latest
attempt and replace `last_good_sample` exactly when `ok = true`; every
failing sampling path of either variant produces `ok = false` with a
nonempty error, so storing it leaves `last_good_sample` untouched. -/
theorem failed_sample_preserves_last_good :
    (∀ (st : SourceSampleState) (s : TempSample),
      (SysfsTempSource_store_sample st s).has_polled = true ∧
        (SysfsTempSource_store_sample st s).last_sample = some s ∧
        (s.ok = false →
          (SysfsTempSource_store_sample st s).last_good_sample = st.last_good_sample) ∧
        (s.ok = true → (SysfsTempSource_store_sample st s).last_good_sample = some s)) ∧
      (∀ (st : SourceSampleState) (s : TempSample),
        (UbusTempSource_store_sample st s).has_polled = true ∧
          (UbusTempSource_store_sample st s).last_sample = some s ∧
          (s.ok = false →
            (UbusTempSource_store_sample st s).last_good_sample = st.last_good_sample) ∧
          (s.ok = true → (UbusTempSource_store_sample st s).last_good_sample = some s)) ∧
      (∀ (path : List Char) (ts : Int),
        (SysfsTempSource_sample path ts none).ok = false ∧
          (SysfsTempSource_sample path ts none).error ≠ []) ∧
      (∀ (st : SourceSampleState) (error : List Char) (ts : Int),
        (SysfsTempSource_publish_failure st error ts).last_good_sample =
          st.last_good_sample) ∧
      ∀ (object method key : List Char) (ts : Int) (oc : UbusSampleOutcome),
        (∀ v : Int, oc ≠ UbusSampleOutcome.value v) →
        (UbusTempSource_sample object method key ts oc).ok = false ∧
          (UbusTempSource_sample object method key ts oc).error ≠ [] := by
  refine ⟨?_, ?_, ?_, ?_, ?_⟩
  · intro st s
    refine ⟨rfl, rfl, ?_, ?_⟩
    · intro h
      simp [SysfsTempSource_store_sample, h]
    · intro h
      simp [SysfsTempSource_store_sample, h]
  · intro st s
    refine ⟨rfl, rfl, ?_, ?_⟩
    · intro h
      simp [UbusTempSource_store_sample, h]
    · intro h
      simp [UbusTempSource_store_sample, h]
  · intro path ts
    refine ⟨rfl, ?_⟩
    simp [SysfsTempSource_sample]
  · intro st error ts
    simp [SysfsTempSource_publish_failure, SysfsTempSource_store_sample]
  · intro object method key ts oc hnv
    match oc with
    | .connect_failed => exact ⟨rfl, by simp [UbusTempSource_sample]⟩
    | .lookup_failed rc => exact ⟨rfl, by simp [UbusTempSource_sample]⟩
    | .args_failed f =>
      refine ⟨rfl, ?_⟩
      match f with
      | .not_object => simp [UbusTempSource_sample, ubus_args_failure_text]
      | .invalid_json what => simp [UbusTempSource_sample, ubus_args_failure_text]
      | .nesting_too_deep => simp [UbusTempSource_sample, ubus_args_failure_text]
      | .open_table_failed => simp [UbusTempSource_sample, ubus_args_failure_text]
      | .open_array_failed => simp [UbusTempSource_sample, ubus_args_failure_text]
      | .add_bool_failed => simp [UbusTempSource_sample, ubus_args_failure_text]
      | .add_unsigned_failed => simp [UbusTempSource_sample, ubus_args_failure_text]
      | .negative_integer => simp [UbusTempSource_sample, ubus_args_failure_text]
      | .add_integer_failed => simp [UbusTempSource_sample, ubus_args_failure_text]
      | .add_float_failed => simp [UbusTempSource_sample, ubus_args_failure_text]
      | .add_string_failed => simp [UbusTempSource_sample, ubus_args_failure_text]
      | .null_value => simp [UbusTempSource_sample, ubus_args_failure_text]
      | .unsupported_type => simp [UbusTempSource_sample, ubus_args_failure_text]
    | .call_failed rc => exact ⟨rfl, by simp [UbusTempSource_sample]⟩
    | .no_value cb =>
      refine ⟨rfl, ?_⟩
      by_cases hcb : cb = []
      · simp [UbusTempSource_sample, hcb]
      · simp [UbusTempSource_sample, hcb]
    | .value v => exact absurd rfl (hnv v)

theorem failed_sample_preserves_last_good_witness :
    ((⟨false, none, some { ok := true, temp_mC := 42000, sample_ts := 3 }⟩ :
          SourceSampleState).last_good_sample =
        some { ok := true, temp_mC := 42000, sample_ts := 3 } ∧
      (TempSample.mk false 0 7 ("cannot read ".toList ++ ['/', 'x'])).ok = false) ∧
      (SysfsTempSource_store_sample
          ⟨false, none, some { ok := true, temp_mC := 42000, sample_ts := 3 }⟩
          (TempSample.mk false 0 7 ("cannot read ".toList ++ ['/', 'x']))).last_good_sample =
        some { ok := true, temp_mC := 42000, sample_ts := 3 } :=
  ⟨⟨rfl, rfl⟩,
    (failed_sample_preserves_last_good.1
      ⟨false, none, some { ok := true, temp_mC := 42000, sample_ts := 3 }⟩
      (TempSample.mk false 0 7 ("cannot read ".toList ++ ['/', 'x']))).2.2.1 rfl⟩

theorem canonicalize_empty_object_check :
    canonicalize_json_object_text [chLBrace, chRBrace] "t" = .ok [chLBrace, chRBrace] := by
  decide

theorem assoc_find_append_isSome {α : Type} (l1 l2 : List (List Char × α))
    (k : List Char) (h : (assoc_find l1 k).isSome = true) :
    (assoc_find (l1 ++ l2) k).isSome = true := by
  induction l1 with
  | nil => simp [assoc_find] at h
  | cons p rest ih =>
    rw [List.cons_append]
    unfold assoc_find at h ⊢
    split
    · simp
    · rw [if_neg (by assumption)] at h
      exact ih h

/-- If any element of the list already owns a resource registered in
`seen_resources` (whenever its canonicalization succeeds at all), the
validation loop cannot succeed. -/
theorem validate_sources_not_ok_of_seen (l : List BoardSourceConfig) :
    ∀ (seen_ids : List (List Char)) (seen_resources : List (List Char × List Char)),
    (∃ y ∈ l, ∀ cy, source_canon y = .ok cy →
      (assoc_find seen_resources (source_resource_key cy)).isSome = true) →
    (validate_sources l seen_ids seen_resources).isOk = false := by
  induction l with
  | nil =>
    intro seen_ids seen_resources h
    obtain ⟨y, hy, -⟩ := h
    simp at hy
  | cons src rest ih =>
    intro seen_ids seen_resources h
    obtain ⟨y, hy, hkey⟩ := h
    unfold validate_sources
    simp only [bind, Except.bind]
    match hpre : validate_one_source_pre src with
    | .error e => rfl
    | .ok s1 =>
      dsimp only
      by_cases hid : seen_ids.contains s1.id = true
      · rw [if_pos hid]
        rfl
      · rw [if_neg hid]
        match hmain : validate_one_source_main s1 with
        | .error e => rfl
        | .ok s2 =>
          dsimp only
          rcases List.mem_cons.mp hy with hy1 | hy2
          · subst hy1
            have hcanon : source_canon y = .ok s2 := by
              simp only [source_canon, bind, Except.bind, hpre]
              exact hmain
            have hsome := hkey s2 hcanon
            match hfind : assoc_find seen_resources (source_resource_key s2) with
            | some owner => rfl
            | none =>
              rw [hfind] at hsome
              simp at hsome
          · match hfind : assoc_find seen_resources (source_resource_key s2) with
            | some owner => rfl
            | none =>
              have hih := ih (s2.id :: seen_ids)
                (seen_resources ++ [(source_resource_key s2, s2.id)])
                ⟨y, hy2, fun cy hcy =>
                  assoc_find_append_isSome _ _ _ (hkey cy hcy)⟩
              match hrec : validate_sources rest (s2.id :: seen_ids)
                  (seen_resources ++ [(source_resource_key s2, s2.id)]) with
              | .error e => rfl
              | .ok out =>
                rw [hrec] at hih
                simp [Except.isOk, Except.toBool] at hih

theorem assoc_find_append_self {α : Type} (l1 : List (List Char × α))
    (k : List Char) (v : α) :
    (assoc_find (l1 ++ [(k, v)]) k).isSome = true := by
  induction l1 with
  | nil => simp [assoc_find]
  | cons p rest ih =>
    rw [List.cons_append]
    unfold assoc_find
    split
    · simp
    · exact ih

/-- The successful output of `canonicalize_json_object_text` does not
depend on the diagnostic name. -/
theorem canonicalize_json_ok_name_irrel (s : List Char) (n1 n2 : String)
    (r1 r2 : List Char) (h1 : canonicalize_json_object_text s n1 = .ok r1)
    (h2 : canonicalize_json_object_text s n2 = .ok r2) : r1 = r2 := by
  unfold canonicalize_json_object_text at h1 h2
  match hp : json_parse s with
  | .error e =>
    rw [hp] at h1
    cases h1
  | .ok j =>
    rw [hp] at h1 h2
    match j with
    | .obj fields =>
      dsimp only at h1 h2
      injection h1 with h1
      injection h2 with h2
      rw [← h1, ← h2]
    | .null => cases h1
    | .bool b => cases h1
    | .num n => cases h1
    | .str t => cases h1
    | .arr items => cases h1

/-- Shape of a successfully canonicalized sysfs source: its type is
exactly `sysfs` and its path is the canonicalized trimmed raw path. -/
theorem source_canon_sysfs_shape (x cx : BoardSourceConfig)
    (ht : to_lower_ascii (trim x.type) = "sysfs".toList)
    (hx : source_canon x = .ok cx) :
    cx.type = "sysfs".toList ∧ cx.path = canonicalize_path_text (trim x.path) := by
  simp only [source_canon, validate_one_source_pre, bind, Except.bind] at hx
  by_cases hid : (! is_valid_source_id (trim x.id)) = true
  · rw [if_pos hid] at hx
    cases hx
  · rw [if_neg hid] at hx
    dsimp only at hx
    rw [validate_one_source_main] at hx
    simp only [bind, Except.bind] at hx
    dsimp only at hx
    rw [ht] at hx
    have hps : board_config_spec.source_poll_sec = ⟨"poll".toList, 2, 1, 0, false⟩ := rfl
    have hts : board_config_spec.source_ttl_sec = ⟨"ttl".toList, 10, 1, 0, false⟩ := rfl
    have hws : board_config_spec.source_weight = ⟨"weight".toList, 100, 1, 200, true⟩ := rfl
    have hsts : board_config_spec.source_t_start_mC =
      ⟨"t_start".toList, 60000, -273150, 300000, true⟩ := rfl
    have htfs : board_config_spec.source_t_full_mC =
      ⟨"t_full".toList, 80000, -273150, 300000, true⟩ := rfl
    have htcs : board_config_spec.source_t_crit_mC =
      ⟨"t_crit".toList, 90000, -273150, 300000, true⟩ := rfl
    rw [hps, hts, hws, hsts, htfs, htcs] at hx
    dsimp only at hx
    by_cases c1 : x.poll_sec < 1
    · rw [if_pos c1] at hx
      cases hx
    rw [if_neg c1] at hx
    rw [if_neg (show ¬(false = true ∧ x.poll_sec > 0) by simp)] at hx
    by_cases c3 : x.ttl_sec < 1
    · rw [if_pos c3] at hx
      cases hx
    rw [if_neg c3] at hx
    by_cases c4 : x.ttl_sec < x.poll_sec
    · rw [if_pos c4] at hx
      cases hx
    rw [if_neg c4] at hx
    by_cases c5 : x.weight < 1 ∨ true = true ∧ x.weight > 200
    · rw [if_pos c5] at hx
      cases hx
    rw [if_neg c5] at hx
    by_cases c6 : x.t_start_mC < -273150 ∨ true = true ∧ x.t_start_mC > 300000
    · rw [if_pos c6] at hx
      cases hx
    rw [if_neg c6] at hx
    by_cases c7 : x.t_full_mC < -273150 ∨ true = true ∧ x.t_full_mC > 300000
    · rw [if_pos c7] at hx
      cases hx
    rw [if_neg c7] at hx
    by_cases c8 : x.t_crit_mC < -273150 ∨ true = true ∧ x.t_crit_mC > 300000
    · rw [if_pos c8] at hx
      cases hx
    rw [if_neg c8] at hx
    by_cases c9 : (! decide (x.t_start_mC < x.t_full_mC ∧ x.t_full_mC ≤ x.t_crit_mC)) = true
    · rw [if_pos c9] at hx
      cases hx
    rw [if_neg c9] at hx
    rw [if_pos (show "sysfs".toList = "sysfs".toList from rfl)] at hx
    by_cases c10 : trim x.path = []
    · rw [if_pos c10] at hx
      cases hx
    rw [if_neg c10] at hx
    by_cases c11 : canonicalize_path_text (trim x.path) = [] ∨
      canonicalize_path_text (trim x.path) = ['.'] ∨
      (canonicalize_path_text (trim x.path)).headD ' ' ≠ '/'
    · rw [if_pos c11] at hx
      cases hx
    rw [if_neg c11] at hx
    cases hx
    exact ⟨rfl, rfl⟩

/-- Shape of a successfully canonicalized ubus source: its type is
exactly `ubus`, its object/method/key are the trimmed raw fields and its
args text is a successful canonicalization of the trimmed raw args. -/
theorem source_canon_ubus_shape (x cx : BoardSourceConfig)
    (ht : to_lower_ascii (trim x.type) = "ubus".toList)
    (hx : source_canon x = .ok cx) :
    cx.type = "ubus".toList ∧ cx.object = trim x.object ∧
      cx.method = trim x.method ∧ cx.key = trim x.key ∧
      ∃ msg, canonicalize_json_object_text
        (if trim x.args_json = [] then [chLBrace, chRBrace] else trim x.args_json)
        msg = .ok cx.args_json := by
  simp only [source_canon, validate_one_source_pre, bind, Except.bind] at hx
  by_cases hid : (! is_valid_source_id (trim x.id)) = true
  · rw [if_pos hid] at hx
    cases hx
  · rw [if_neg hid] at hx
    dsimp only at hx
    rw [validate_one_source_main] at hx
    simp only [bind, Except.bind] at hx
    dsimp only at hx
    rw [ht] at hx
    have hps : board_config_spec.source_poll_sec = ⟨"poll".toList, 2, 1, 0, false⟩ := rfl
    have hts : board_config_spec.source_ttl_sec = ⟨"ttl".toList, 10, 1, 0, false⟩ := rfl
    have hws : board_config_spec.source_weight = ⟨"weight".toList, 100, 1, 200, true⟩ := rfl
    have hsts : board_config_spec.source_t_start_mC =
      ⟨"t_start".toList, 60000, -273150, 300000, true⟩ := rfl
    have htfs : board_config_spec.source_t_full_mC =
      ⟨"t_full".toList, 80000, -273150, 300000, true⟩ := rfl
    have htcs : board_config_spec.source_t_crit_mC =
      ⟨"t_crit".toList, 90000, -273150, 300000, true⟩ := rfl
    rw [hps, hts, hws, hsts, htfs, htcs] at hx
    dsimp only at hx
    by_cases c1 : x.poll_sec < 1
    · rw [if_pos c1] at hx
      cases hx
    rw [if_neg c1] at hx
    rw [if_neg (show ¬(false = true ∧ x.poll_sec > 0) by simp)] at hx
    by_cases c3 : x.ttl_sec < 1
    · rw [if_pos c3] at hx
      cases hx
    rw [if_neg c3] at hx
    by_cases c4 : x.ttl_sec < x.poll_sec
    · rw [if_pos c4] at hx
      cases hx
    rw [if_neg c4] at hx
    by_cases c5 : x.weight < 1 ∨ true = true ∧ x.weight > 200
    · rw [if_pos c5] at hx
      cases hx
    rw [if_neg c5] at hx
    by_cases c6 : x.t_start_mC < -273150 ∨ true = true ∧ x.t_start_mC > 300000
    · rw [if_pos c6] at hx
      cases hx
    rw [if_neg c6] at hx
    by_cases c7 : x.t_full_mC < -273150 ∨ true = true ∧ x.t_full_mC > 300000
    · rw [if_pos c7] at hx
      cases hx
    rw [if_neg c7] at hx
    by_cases c8 : x.t_crit_mC < -273150 ∨ true = true ∧ x.t_crit_mC > 300000
    · rw [if_pos c8] at hx
      cases hx
    rw [if_neg c8] at hx
    by_cases c9 : (! decide (x.t_start_mC < x.t_full_mC ∧ x.t_full_mC ≤ x.t_crit_mC)) = true
    · rw [if_pos c9] at hx
      cases hx
    rw [if_neg c9] at hx
    rw [if_neg (show ¬("ubus".toList = "sysfs".toList) by decide)] at hx
    rw [if_pos (show "ubus".toList = "ubus".toList from rfl)] at hx
    by_cases c10 : trim x.object = [] ∨ trim x.method = [] ∨ trim x.key = []
    · rw [if_pos c10] at hx
      cases hx
    rw [if_neg c10] at hx
    cases hc : canonicalize_json_object_text
        (if trim x.args_json = [] then [chLBrace, chRBrace] else trim x.args_json)
        ("SOURCE_" ++ String.mk (trim x.id) ++ " args") with
    | error e =>
      rw [hc] at hx
      cases hx
    | ok canon =>
      rw [hc] at hx
      dsimp only at hx
      cases hx
      exact ⟨rfl, rfl, rfl, rfl,
        ⟨"SOURCE_" ++ String.mk (trim x.id) ++ " args", hc⟩⟩

/-- A profile that passes `validate_board_config` has a source list that
passes the duplicate-checking loop. -/
theorem validate_board_ok_sources_ok (cfg out : BoardConfig)
    (h : validate_board_config cfg = .ok out) :
    (validate_sources cfg.sources [] []).isOk = true := by
  unfold validate_board_config at h
  simp only [bind, Except.bind] at h
  repeat' split at h
  all_goals simp_all [Except.isOk, Except.toBool]

/-- Sources with identical raw sysfs paths, or identical raw ubus
coordinates, canonicalize (when they canonicalize at all) to the same
resource key. -/
theorem source_canon_key_eq (x y cx cy : BoardSourceConfig)
    (hdup : (to_lower_ascii (trim x.type) = "sysfs".toList ∧
             to_lower_ascii (trim y.type) = "sysfs".toList ∧ x.path = y.path) ∨
            (to_lower_ascii (trim x.type) = "ubus".toList ∧
             to_lower_ascii (trim y.type) = "ubus".toList ∧
             x.object = y.object ∧ x.method = y.method ∧ x.key = y.key ∧
             x.args_json = y.args_json))
    (hx : source_canon x = .ok cx) (hy : source_canon y = .ok cy) :
    source_resource_key cx = source_resource_key cy := by
  rcases hdup with ⟨htx, hty, hpath⟩ | ⟨htx, hty, hobj, hmeth, hkey, hargs⟩
  · obtain ⟨hct, hcp⟩ := source_canon_sysfs_shape x cx htx hx
    obtain ⟨hct2, hcp2⟩ := source_canon_sysfs_shape y cy hty hy
    unfold source_resource_key
    rw [if_pos hct, if_pos hct2, hcp, hcp2, hpath]
  · obtain ⟨hct, hco, hcm, hck, m1, ha1⟩ := source_canon_ubus_shape x cx htx hx
    obtain ⟨hct2, hco2, hcm2, hck2, m2, ha2⟩ := source_canon_ubus_shape y cy hty hy
    have hargs_eq : cx.args_json = cy.args_json := by
      rw [hargs] at ha1
      exact canonicalize_json_ok_name_irrel _ m1 m2 _ _ ha1 ha2
    unfold source_resource_key
    rw [if_neg (show ¬(cx.type = "sysfs".toList) by rw [hct]; decide),
        if_neg (show ¬(cy.type = "sysfs".toList) by rw [hct2]; decide),
        if_pos hct, if_pos hct2, hco, hco2, hcm, hcm2, hck, hck2,
        hargs_eq, hobj, hmeth, hkey]

/-- If a source list contains, in order, two entries whose
canonicalizations would share a resource key, the validation loop
cannot succeed from any starting state. -/
theorem validate_sources_dup_not_ok (prefx : List BoardSourceConfig) :
    ∀ (l : List BoardSourceConfig) (x y : BoardSourceConfig)
      (mid post : List BoardSourceConfig) (ids : List (List Char))
      (res : List (List Char × List Char)),
    l = prefx ++ x :: (mid ++ y :: post) →
    (∀ cx cy, source_canon x = .ok cx → source_canon y = .ok cy →
      source_resource_key cx = source_resource_key cy) →
    (validate_sources l ids res).isOk = false := by
  induction prefx with
  | nil =>
    intro l x y mid post ids res hl hkeq
    subst hl
    rw [List.nil_append]
    unfold validate_sources
    simp only [bind, Except.bind]
    match hpre : validate_one_source_pre x with
    | .error e => rfl
    | .ok s1 =>
      dsimp only
      by_cases hid : ids.contains s1.id = true
      · rw [if_pos hid]
        rfl
      · rw [if_neg hid]
        match hmain : validate_one_source_main s1 with
        | .error e => rfl
        | .ok s2 =>
          dsimp only
          have hcx : source_canon x = .ok s2 := by
            simp only [source_canon, bind, Except.bind, hpre]
            exact hmain
          match hfind : assoc_find res (source_resource_key s2) with
          | some owner => rfl
          | none =>
            have hnot := validate_sources_not_ok_of_seen (mid ++ y :: post)
              (s2.id :: ids) (res ++ [(source_resource_key s2, s2.id)])
              ⟨y, by simp, fun cy hcy => by
                rw [← hkeq s2 cy hcx hcy]
                exact assoc_find_append_self res (source_resource_key s2) s2.id⟩
            match hrec : validate_sources (mid ++ y :: post) (s2.id :: ids)
                (res ++ [(source_resource_key s2, s2.id)]) with
            | .error e => rfl
            | .ok outl =>
              rw [hrec] at hnot
              simp [Except.isOk, Except.toBool] at hnot
  | cons p prefx ih =>
    intro l x y mid post ids res hl hkeq
    subst hl
    rw [List.cons_append]
    unfold validate_sources
    simp only [bind, Except.bind]
    match hpre : validate_one_source_pre p with
    | .error e => rfl
    | .ok s1 =>
      dsimp only
      by_cases hid : ids.contains s1.id = true
      · rw [if_pos hid]
        rfl
      · rw [if_neg hid]
        match hmain : validate_one_source_main s1 with
        | .error e => rfl
        | .ok s2 =>
          dsimp only
          match hfind : assoc_find res (source_resource_key s2) with
          | some owner => rfl
          | none =>
            have hihr := ih (prefx ++ x :: (mid ++ y :: post)) x y mid post
              (s2.id :: ids) (res ++ [(source_resource_key s2, s2.id)]) rfl hkeq
            match hrec : validate_sources (prefx ++ x :: (mid ++ y :: post))
                (s2.id :: ids) (res ++ [(source_resource_key s2, s2.id)]) with
            | .error e => rfl
            | .ok outl =>
              rw [hrec] at hihr
              simp [Except.isOk, Except.toBool] at hihr

/-- C7: duplicate-resource rejection. Any configuration whose source list
contains two sources with the same raw sysfs path (both of type `sysfs`),
or the same raw object/method/key/args coordinates (both of type `ubus`),
is rejected by `validate_board_config`: validation never accepts it. -/
theorem duplicate_resource_rejected (cfg : BoardConfig)
    (pre mid post : List BoardSourceConfig) (x y : BoardSourceConfig)
    (hsplit : cfg.sources = pre ++ x :: (mid ++ y :: post))
    (hdup : (to_lower_ascii (trim x.type) = "sysfs".toList ∧
             to_lower_ascii (trim y.type) = "sysfs".toList ∧ x.path = y.path) ∨
            (to_lower_ascii (trim x.type) = "ubus".toList ∧
             to_lower_ascii (trim y.type) = "ubus".toList ∧
             x.object = y.object ∧ x.method = y.method ∧ x.key = y.key ∧
             x.args_json = y.args_json)) :
    (validate_board_config cfg).isOk = false := by
  match hv : validate_board_config cfg with
  | .error e => rfl
  | .ok out =>
    exfalso
    have hs := validate_board_ok_sources_ok cfg out hv
    have hn := validate_sources_dup_not_ok pre cfg.sources x y mid post [] [] hsplit
      (fun cx cy hcx hcy => source_canon_key_eq x y cx cy hdup hcx hcy)
    rw [hn] at hs
    cases hs

/-- C7 witness: a concrete two-source profile referencing the same sysfs
path is rejected. -/
theorem duplicate_resource_rejected_witness :
    (validate_board_config
      ⟨2, "user".toList, "/p".toList, "/pe".toList, "/m".toList, 0, 255, 5, 10,
        2000, 64,
        [⟨['a'], "sysfs".toList, "/t".toList, [], [], [], [], 1, 2, 3, 4, 2, 100⟩,
         ⟨['b'], "sysfs".toList, "/t".toList, [], [], [], [], 1, 2, 3, 4, 2, 100⟩]⟩).isOk
      = false :=
  duplicate_resource_rejected _ [] [] []
    ⟨['a'], "sysfs".toList, "/t".toList, [], [], [], [], 1, 2, 3, 4, 2, 100⟩
    ⟨['b'], "sysfs".toList, "/t".toList, [], [], [], [], 1, 2, 3, 4, 2, 100⟩
    rfl (.inl ⟨by decide, by decide, rfl⟩)

theorem fs_read_erase_ne (fs : FS) (pp q : List Char) (h : ¬(q = pp)) :
    fs_read (fs_erase fs pp) q = fs_read fs q := by
  unfold fs_read fs_erase
  induction fs with
  | nil => rfl
  | cons e rest ih =>
    obtain ⟨k, v⟩ := e
    rw [List.filter_cons]
    by_cases hk : k = pp
    · have hkq : ¬(k = q) := fun hq => h (hq ▸ hk)
      rw [if_neg (by simp [hk])]
      rw [ih]
      conv_rhs => rw [assoc_find.eq_def]
      dsimp only
      rw [if_neg hkq]
    · rw [if_pos (by simp [hk])]
      conv_lhs => rw [assoc_find.eq_def]
      conv_rhs => rw [assoc_find.eq_def]
      dsimp only
      by_cases hkq : k = q
      · rw [if_pos hkq, if_pos hkq]
      · rw [if_neg hkq, if_neg hkq]
        exact ih

theorem fs_read_write_ne (fs : FS) (pp c q : List Char) (h : ¬(q = pp)) :
    fs_read (fs_write fs pp c) q = fs_read fs q := by
  have hstep : fs_read (fs_write fs pp c) q =
      if pp = q then some c else fs_read (fs_erase fs pp) q := rfl
  rw [hstep, if_neg (fun hq => h hq.symm)]
  exact fs_read_erase_ne fs pp q h

/-- C9: apply-config atomicity. Whenever the JSON-payload commit path
fails — malformed payload, non-object payload, a profile that fails
validation (for instance a source id containing a space), or a failed
reload of the temp file — the previously committed configuration file is
byte-for-byte unchanged; new content is only installed by the final
rename after the rendered text was re-validated from the temp file. -/
theorem apply_config_atomic_on_failure (fs : FS)
    (config_path payload_text temp_suffix : List Char)
    (herr : (write_validated_config_from_rpc_json fs config_path payload_text
      temp_suffix).2.isOk = false) :
    fs_read (write_validated_config_from_rpc_json fs config_path payload_text
      temp_suffix).1 config_path = fs_read fs config_path := by
  have hne : ¬(config_path = config_path ++ (".tmp.".toList ++ temp_suffix)) := by
    intro hcp
    have h2 := congrArg List.length hcp
    have h5 : (".tmp.".toList ++ temp_suffix).length = 5 + temp_suffix.length := by
      rw [List.length_append]
      have h55 : (".tmp.".toList).length = 5 := rfl
      rw [h55]
    rw [List.length_append, h5] at h2
    omega
  unfold write_validated_config_from_rpc_json at herr ⊢
  match hp : json_parse payload_text with
  | .error e => rfl
  | .ok payload =>
    rw [hp] at herr
    dsimp only at herr
    dsimp only
    cases payload with
    | obj fields =>
      dsimp only
      match hr : render_board_config_from_rpc_json (.obj fields) with
      | .error e => rfl
      | .ok rendered =>
        rw [hr] at herr
        dsimp only at herr ⊢
        match hl : load_board_config_text
            ((fs_read
              (fs_write fs (config_path ++ (".tmp.".toList ++ temp_suffix)) rendered)
              (config_path ++ (".tmp.".toList ++ temp_suffix))).getD []) with
        | .error e =>
          exact (fs_read_erase_ne _ _ _ hne).trans (fs_read_write_ne _ _ _ _ hne)
        | .ok cfg2 =>
          rw [hl] at herr
          simp [Except.isOk, Except.toBool] at herr
    | null => rfl
    | bool b => rfl
    | num n => rfl
    | str t => rfl
    | arr items => rfl

/-- C9 witness: applying a payload whose source id contains a space fails,
and the committed file content (`OLD`) is byte-for-byte unchanged. -/
theorem apply_config_atomic_on_failure_witness :
    (write_validated_config_from_rpc_json [("/e/b.conf".toList, "OLD".toList)]
        "/e/b.conf".toList c9_payload_text "Ab3xYz".toList).2.isOk = false ∧
    fs_read (write_validated_config_from_rpc_json
        [("/e/b.conf".toList, "OLD".toList)] "/e/b.conf".toList c9_payload_text
        "Ab3xYz".toList).1 "/e/b.conf".toList =
      fs_read [("/e/b.conf".toList, "OLD".toList)] "/e/b.conf".toList :=
  ⟨by decide, apply_config_atomic_on_failure _ _ _ _ (by decide)⟩

/-- C6: configuration round-trip stability does not hold in the code.
`c6_cfg_bad` passes `validate_board_config` unchanged, its rendered text
reloads without error, yet the reloaded profile re-renders to different
bytes: `strip_inline_comment` silently truncates the unescaped `#` of
`PWM_PATH=/a#b` to `/a` on reload, so render-load-render is not the
identity on rendered texts even for validated profiles. -/
theorem config_roundtrip_violated :
    validate_board_config c6_cfg_bad = .ok c6_cfg_bad ∧
    load_board_config_text (render_board_config_text c6_cfg_bad) =
      .ok { c6_cfg_bad with pwm_path := "/a".toList } ∧
    render_board_config_text { c6_cfg_bad with pwm_path := "/a".toList } ≠
      render_board_config_text c6_cfg_bad ∧
    roundtrip_stable c6_cfg_bad = false := by
  refine ⟨by decide, by decide, by decide, by decide⟩

end Fancontrol
